import Mathlib

/-!
Verification development for the Cavro résumé-analysis engine.

The Python modules under `cavro/modules/` are shallowly embedded here:
pure functions become Lean functions over `String` / `List Char`, numeric
values (Python floats used only for scores and fractions) are modelled as
rationals `ℚ`, and Python code paths that raise exceptions are modelled
with `Except String`.  Character classes (`\w`, `\s`, `\d`, printability)
follow the Python definitions exactly on the ASCII range, which covers
every input evaluated in this file; Python string methods and a regex
pattern are always named in a doc comment next to the Lean definition
that embeds them.
-/

-- Batteries marks the rational-number operations irreducible; the
-- concrete evaluations in the theorems below need them to reduce.
attribute [local semireducible] Rat.mul Rat.add Rat.inv Rat.sub

namespace Cavro

/-- Python regex class `\s` and `str.split()` whitespace, ASCII range
(space, tab, newline, carriage return, vertical tab, form feed). -/
def pyIsSpace (c : Char) : Bool :=
  c = ' ' || c = '\t' || c = '\n' || c = '\r' || c = '\x0b' || c = '\x0c'

/-- Python regex class `\w` (word character): alphanumeric or underscore,
ASCII range. -/
def pyIsWord (c : Char) : Bool :=
  c.isAlphanum || c = '_'

/-- Python regex class `\d`, ASCII range. -/
def pyIsDigit (c : Char) : Bool :=
  c.isDigit

/-- Python `str.lower` on one character, ASCII range. -/
def pyLowerChar (c : Char) : Char :=
  c.toLower

/-- Python `str.lower`, applied to a character list. -/
def lowerL (l : List Char) : List Char :=
  l.map pyLowerChar

/-- Python `str.isprintable` on one character: on the ASCII range exactly
the characters from space (0x20) to tilde (0x7e); characters above the
ASCII range are treated as printable (exact for every input evaluated in
this file, all of which are ASCII). -/
def pyIsPrintable (c : Char) : Bool :=
  (0x20 ≤ c.val && c.val ≤ 0x7e) || 0x7f < c.val

/-- Decimal value of a digit run, as produced by Python `int` on the
captured digits of a regex group. -/
def natOfDigits (l : List Char) : Nat :=
  l.foldl (fun acc c => acc * 10 + (c.toNat - 48)) 0

/-- Containment of `needle` in `hay` as a raw substring — Python
`needle in hay`. -/
def substrOccurs (needle hay : List Char) : Bool :=
  needle.isPrefixOf hay ||
    match hay with
    | [] => false
    | _ :: t => substrOccurs needle t

/-- Word-side test used by the `\b` assertion: an absent neighbour
(string edge) counts as a non-word side. -/
def sideIsWord : Option Char → Bool
  | none => false
  | some c => pyIsWord c

/-- Python `\b` word boundary between two neighbouring positions: holds
iff exactly one side is a word character. -/
def wordBoundary (prev next : Option Char) : Bool :=
  sideIsWord prev != sideIsWord next

/-- Match of the regex `\b<literal>\b` at one fixed position: the literal
must be a prefix of the remaining text, with a word boundary against the
previous character and against the character after the literal. -/
def wbMatchesHere (kw : List Char) (prev : Option Char) (rest : List Char) : Bool :=
  match kw with
  | [] => false
  | k0 :: _ =>
    kw.isPrefixOf rest &&
    wordBoundary prev (some k0) &&
    (match kw.getLast? with
     | none => false
     | some kl => wordBoundary (some kl) ((rest.drop kw.length).head?))

/-- Search for the regex `\b<literal>\b` anywhere in the text
(`re.search` on an escaped literal wrapped in word boundaries). -/
def wbSearchAux (kw : List Char) (prev : Option Char) (rest : List Char) : Bool :=
  wbMatchesHere kw prev rest ||
    match rest with
    | [] => false
    | c :: t => wbSearchAux kw (some c) t

/-- Boolean result of `re.search(r"\b" + re.escape(kw) + r"\b", text)`. -/
def wbSearch (kw : List Char) (text : List Char) : Bool :=
  wbSearchAux kw none text

/-- Python `str.split()` with no separator: split on runs of whitespace,
dropping empty pieces. -/
def pySplitWs (l : List Char) : List (List Char) :=
  match l with
  | [] => []
  | c :: t =>
    if pyIsSpace c then pySplitWs t
    else
      match pySplitWs t with
      | [] => [[c]]
      | w :: ws =>
        match t with
        | [] => [[c]]
        | t0 :: _ => if pyIsSpace t0 then [c] :: w :: ws else (c :: w) :: ws

/-- Python `" ".join(words)`. -/
def joinSpace (ws : List (List Char)) : List Char :=
  match ws with
  | [] => []
  | [w] => w
  | w :: rest => w ++ ' ' :: joinSpace rest

/-- Python `str.strip()`: drop leading and trailing whitespace. -/
def pyStrip (l : List Char) : List Char :=
  (((l.dropWhile pyIsSpace).reverse).dropWhile pyIsSpace).reverse

/-- Python `str.lstrip()` restricted to what `strip` needs. -/
def dropSpaces (l : List Char) : List Char :=
  l.dropWhile pyIsSpace

/-- Python `min` on two numbers, on rationals (returns the first argument
on ties), kernel-computable. -/
def pyMin (a b : ℚ) : ℚ :=
  if a ≤ b then a else b

/-- Python `max` on two numbers, on rationals (returns the first argument
on ties), kernel-computable. -/
def pyMax (a b : ℚ) : ℚ :=
  if b ≤ a then a else b

end Cavro

namespace Cavro.Career

/-!
Embedding of `cavro/modules/career_suggestions.py`.
-/

/-- Leadership-title keywords of `analyze_experience_level`
(career_suggestions.py lines 347-350), checked by plain substring
containment in the lowercased text. -/
def leadershipTerms : List (List Char) :=
  ["senior".data, "lead".data, "manager".data, "director".data, "vp".data,
   "cto".data, "cio".data, "architect".data, "principal".data,
   "head of".data, "team lead".data, "tech lead".data]

/-- Tail of the years-of-experience regex after the captured digits:
`\s*(?:year|yr)s?\s+(?:of\s+)?experience` with the alternation and
option order of the pattern (career_suggestions.py line 342). -/
def yearsTail (l : List Char) : Bool :=
  let afterWord : List Char → Bool := fun r =>
    -- s? (greedy), then \s+, then (?:of\s+)?, then the literal experience
    let afterS : List Char → Bool := fun r2 =>
      match r2 with
      | [] => false
      | c :: _ =>
        if pyIsSpace c then
          let r3 := r2.dropWhile pyIsSpace
          (("of".data.isPrefixOf r3 &&
              (match r3.drop 2 with
               | [] => false
               | c2 :: _ =>
                 pyIsSpace c2 &&
                   "experience".data.isPrefixOf ((r3.drop 2).dropWhile pyIsSpace))) ||
           "experience".data.isPrefixOf r3)
        else false
    match r with
    | 's' :: r2 => afterS r2 || afterS r
    | _ => afterS r
  let r1 := l.dropWhile pyIsSpace
  ("year".data.isPrefixOf r1 && afterWord (r1.drop 4)) ||
    ("yr".data.isPrefixOf r1 && afterWord (r1.drop 2))

/-- Attempted match of `(\d+)\s*(?:year|yr)s?\s+(?:of\s+)?experience` at
one fixed position of the lowercased text, returning the captured years. -/
def yearsMatchAt (l : List Char) : Option Nat :=
  let ds := l.takeWhile pyIsDigit
  if ds.isEmpty then none
  else if yearsTail (l.dropWhile pyIsDigit) then some (natOfDigits ds) else none

/-- Leftmost `re.search` scan for the years-of-experience pattern. -/
def yearsSearch (l : List Char) : Option Nat :=
  match yearsMatchAt l with
  | some n => some n
  | none =>
    match l with
    | [] => none
    | _ :: t => yearsSearch t

/-- Years of experience extracted by `analyze_experience_level`
(career_suggestions.py lines 341-344): the captured group of the first
match in the lowercased text, 0 when absent. -/
def yearsExperience (t : String) : Nat :=
  (yearsSearch (lowerL t.data)).getD 0

/-- Leadership check of `analyze_experience_level` (lines 347-350):
`any(term in text_lower for term in [...])`. -/
def hasLeadershipTerm (t : String) : Bool :=
  leadershipTerms.any (fun term => substrOccurs term (lowerL t.data))

/-- Embedding of `analyze_experience_level` (career_suggestions.py lines
324-359), including the empty-text guard and the exact chain of
conditionals of lines 352-359. -/
def analyze_experience_level (resume_text : String) : String :=
  if resume_text = "" then "entry"
  else
    let years_exp := yearsExperience resume_text
    let has_leadership := hasLeadershipTerm resume_text
    if years_exp ≥ 10 ∨ (has_leadership ∧ years_exp ≥ 5) then "senior"
    else if years_exp ≥ 5 ∨ has_leadership then "mid"
    else if years_exp ≥ 2 then "mid"
    else "entry"

end Cavro.Career

namespace Cavro

/-- Python `str.lower` on a `String`. -/
def lowerS (s : String) : String :=
  String.mk (lowerL s.data)

/-- Substring containment on `String` values — Python `needle in hay`. -/
def substrS (needle hay : String) : Bool :=
  substrOccurs needle.data hay.data

/-- Word-boundary keyword search on `String` values. -/
def wbSearchS (kw text : String) : Bool :=
  wbSearch kw.data text.data

end Cavro

namespace Cavro.Career

/-- Fixed skill vocabulary of `extract_skills` (career_suggestions.py
lines 201-234), in source order. -/
def technical_skills : List String :=
  ["python", "java", "javascript", "typescript", "c++", "c#", "go", "rust", "swift", "kotlin",
   "ruby", "php", "r", "matlab", "scala", "perl", "haskell", "dart", "elixir", "clojure",
   "html", "css", "react", "angular", "vue", "node.js", "django", "flask", "spring", "express",
   "laravel", "ruby on rails", "asp.net", "graphql", "rest api", "websockets",
   "android", "ios", "react native", "flutter", "xamarin", "swiftui", "kotlin multiplatform",
   "machine learning", "deep learning", "data analysis", "data visualization", "pandas",
   "numpy", "scikit-learn", "tensorflow", "pytorch", "opencv", "nltk", "spacy", "hadoop",
   "spark", "hive", "kafka", "tableau", "power bi", "apache beam", "apache flink",
   "aws", "azure", "gcp", "docker", "kubernetes", "terraform", "ansible", "jenkins",
   "github actions", "gitlab ci", "circleci", "prometheus", "grafana", "istio", "helm",
   "linux", "bash", "shell scripting", "infrastructure as code", "serverless", "lambda",
   "sql", "mysql", "postgresql", "mongodb", "redis", "cassandra", "dynamodb", "firebase",
   "oracle", "microsoft sql server", "neo4j", "elasticsearch", "snowflake", "bigquery",
   "blockchain", "ethereum", "solidity", "web3", "iot", "raspberry pi", "arduino",
   "computer vision", "nlp", "reinforcement learning", "quantum computing", "robotics",
   "leadership", "teamwork", "problem solving", "communication", "project management",
   "agile", "scrum", "kanban", "devops", "ci/cd", "test driven development"]

/-- Lookahead `\n\s*\n|\Z` of the experience-section pattern of
`extract_skills` (career_suggestions.py line 243): a newline followed by
optional whitespace containing another newline, or end of input. -/
def lookBlankOrEnd (l : List Char) : Bool :=
  match l with
  | [] => true
  | '\n' :: rest => (rest.takeWhile pyIsSpace).contains '\n'
  | _ => false

/-- Length of the lazy `.*?` part of the experience-section pattern:
smallest extension after which the lookahead holds. -/
def lazyLenUntilBlank (l : List Char) : Nat :=
  if lookBlankOrEnd l then 0
  else
    match l with
    | [] => 0
    | _ :: t => lazyLenUntilBlank t + 1

/-- Attempted match of `(?i)(experience|work history)[^\n]*(\n\s*\-.*?)(?=\n\s*\n|\Z)`
(career_suggestions.py lines 243-244, DOTALL) at one fixed position,
returning the length of the whole match (group 0). -/
def expSectionMatchAt (l : List Char) : Option Nat :=
  let low := lowerL l
  let hdr : Option Nat :=
    if "experience".data.isPrefixOf low then some 10
    else if "work history".data.isPrefixOf low then some 12
    else none
  match hdr with
  | none => none
  | some h =>
    let afterHdr := l.drop h
    let lineLen := (afterHdr.takeWhile (fun c => c ≠ '\n')).length
    match afterHdr.drop lineLen with
    | '\n' :: afterNl =>
      let wsLen := (afterNl.takeWhile pyIsSpace).length
      match afterNl.drop wsLen with
      | '-' :: afterDash =>
        some (h + lineLen + 1 + wsLen + 1 + lazyLenUntilBlank afterDash)
      | _ => none
    | _ => none

/-- Leftmost search for the experience-section pattern, returning the
matched text (group 0). -/
def expSectionSearch (l : List Char) : Option (List Char) :=
  match expSectionMatchAt l with
  | some n => some (l.take n)
  | none =>
    match l with
    | [] => none
    | _ :: t => expSectionSearch t

/-- Embedding of `extract_skills` (career_suggestions.py lines 195-249):
vocabulary terms found by word-boundary search in the lowercased text,
plus terms contained as raw substrings of the matched experience section
(lowercased).  The Python function returns a set; the embedding keeps
the matching terms in vocabulary order, which is membership-equivalent. -/
def extract_skills (resume_text : String) : List String :=
  if resume_text = "" then []
  else
    let text_lower := lowerL resume_text.data
    let expText : Option (List Char) :=
      (expSectionSearch resume_text.data).map lowerL
    technical_skills.filter fun sk =>
      wbSearch sk.data text_lower ||
        (match expText with
         | some e => substrOccurs sk.data e
         | none => false)

/-- Career catalog entry, after the fields of the static dictionary of
`load_career_data` (career_suggestions.py lines 65-193). -/
structure CareerInfo where
  title : String
  required_skills : List String
  preferred_skills : List String
  description : String
  salary_range : Option (Int × Int)
  growth_outlook : String
  education : List String
  certifications : List String
  experience_levels : List (String × String)
  job_market_demand : String
deriving Repr, DecidableEq

/-- Skill analysis returned by `calculate_match_score`. -/
structure SkillAnalysis where
  matching : List String
  missing : List String
  preferred : List String
  missing_preferred : List String
deriving Repr, DecidableEq

/-- Python dict insertion: update the value in place when the key exists,
otherwise append. -/
def dictInsert (d : List (String × ℚ)) (k : String) (v : ℚ) : List (String × ℚ) :=
  match d with
  | [] => [(k, v)]
  | (k0, v0) :: rest =>
    if k0 = k then (k0, v) :: rest else (k0, v0) :: dictInsert rest k v

/-- Python `dict.get(k, default)`. -/
def dictGet (d : List (String × ℚ)) (k : String) (default : ℚ) : ℚ :=
  match d with
  | [] => default
  | (k0, v0) :: rest => if k0 = k then v0 else dictGet rest k default

/-- Relevance dictionary of `calculate_match_score` (career_suggestions.py
lines 287-291): `relevance = 1.0 - i * 0.05` for each enumerated required
skill, with Python dict overwrite semantics on duplicate keys. -/
def buildRelevance (req : List String) : List (String × ℚ) :=
  (req.enum).foldl (fun d p => dictInsert d p.2 (1 - (p.1 : ℚ) * (5 / 100))) []

/-- Embedding of `calculate_match_score` (career_suggestions.py lines
251-313).  Floats are modelled as rationals; the résumé skill set is a
list whose membership matches the Python set. -/
def calculate_match_score (resume_skills : List String) (career : CareerInfo) :
    ℚ × SkillAnalysis × List (String × ℚ) :=
  let required_skills := career.required_skills
  let preferred_skills := career.preferred_skills
  if required_skills = [] then
    (0, ⟨[], [], [], []⟩, [])
  else
    let resume_skills_lower := resume_skills.map lowerS
    let required_skills_lower := required_skills.map lowerS
    let preferred_skills_lower := preferred_skills.map lowerS
    let matching_required := required_skills_lower.filter (resume_skills_lower.contains ·)
    let matching_preferred := preferred_skills_lower.filter (resume_skills_lower.contains ·)
    let missing_required := required_skills_lower.filter (!resume_skills_lower.contains ·)
    let missing_preferred := preferred_skills_lower.filter (!resume_skills_lower.contains ·)
    let preferred_bonus : ℚ :=
      if preferred_skills_lower = [] then 0
      else ((matching_preferred.length : ℚ) / (preferred_skills_lower.length : ℚ)) * (5 / 10)
    let skill_relevance := buildRelevance required_skills_lower
    let total_relevance : ℚ := (skill_relevance.map Prod.snd).sum
    let weighted_score : ℚ :=
      matching_required.foldl (fun acc s => acc + dictGet skill_relevance s (5 / 10)) 0
    let weighted_match : ℚ := if 0 < total_relevance then weighted_score / total_relevance else 0
    let final_score : ℚ := pyMin 1 (weighted_match * (6 / 10) + preferred_bonus * (3 / 10))
    (final_score, ⟨matching_required, missing_required, matching_preferred, missing_preferred⟩,
      skill_relevance)

end Cavro.Career

namespace Cavro.Career

/-- Default career catalog of `load_career_data` (career_suggestions.py
lines 65-193), used when no on-disk JSON catalog exists (none ships with
the repository).  Entries appear in dictionary insertion order. -/
def career_data : List CareerInfo :=
  [{ title := "Data Scientist",
     required_skills := ["python", "machine learning", "statistics", "data analysis", "sql",
       "pandas", "numpy", "data visualization"],
     preferred_skills := ["deep learning", "tensorflow", "pytorch", "scikit-learn", "big data",
       "cloud computing"],
     description := "Analyze and interpret complex data to help organizations make better decisions using statistical and machine learning techniques.",
     salary_range := some (95000, 165000),
     growth_outlook := "Much faster than average (31% growth projected)",
     education := ["Master\x27s in Data Science", "PhD in related field"],
     certifications := ["AWS Certified Data Analytics", "Google Data Analytics",
       "Microsoft Certified: Azure Data Scientist"],
     experience_levels := [("entry", "0-2 years, focusing on data analysis and basic ML models"),
       ("mid", "3-5 years, with experience in production ML systems"),
       ("senior", "5+ years, leading data science initiatives")],
     job_market_demand := "High demand across industries, especially in tech, finance, and healthcare" },
   { title := "Machine Learning Engineer",
     required_skills := ["python", "machine learning", "deep learning", "tensorflow", "pytorch",
       "software engineering", "mlops"],
     preferred_skills := ["kubernetes", "docker", "aws/azure/gcp", "data pipelines",
       "model deployment"],
     description := "Design, build, and deploy machine learning models and systems at scale, focusing on production-grade ML solutions.",
     salary_range := some (110000, 200000),
     growth_outlook := "Much faster than average (22% growth projected)",
     education := ["Master\x27s in Computer Science", "PhD in ML/AI"],
     certifications := ["Google Professional ML Engineer", "AWS Certified ML Specialty"],
     experience_levels := [("entry", "0-2 years, focusing on ML model development"),
       ("mid", "3-5 years, with experience in production ML systems"),
       ("senior", "5+ years, leading ML architecture and strategy")],
     job_market_demand := "Extremely high demand across all tech sectors" },
   { title := "Data Engineer",
     required_skills := ["sql", "python", "etl", "data warehousing", "big data", "apache spark"],
     preferred_skills := ["aws/azure/gcp", "airflow", "kafka", "hadoop", "data modeling"],
     description := "Design, build, and maintain data pipelines and infrastructure for large-scale data processing and analytics.",
     salary_range := some (95000, 170000),
     growth_outlook := "Much faster than average (25% growth projected)",
     education := ["Bachelor\x27s in Computer Science", "Data Engineering"],
     certifications := ["Google Cloud Professional Data Engineer", "AWS Certified Data Analytics"],
     experience_levels := [("entry", "0-2 years, focusing on ETL and data pipelines"),
       ("mid", "3-5 years, with experience in distributed systems"),
       ("senior", "5+ years, leading data architecture")],
     job_market_demand := "Very high demand, especially in data-driven companies" },
   { title := "DevOps Engineer",
     required_skills := ["aws/azure/gcp", "docker", "kubernetes", "ci/cd", "linux",
       "infrastructure as code"],
     preferred_skills := ["terraform", "ansible", "prometheus", "grafana", "gitops"],
     description := "Bridge the gap between development and operations by automating infrastructure and deployment processes.",
     salary_range := some (100000, 180000),
     growth_outlook := "Faster than average (21% growth projected)",
     education := ["Bachelor\x27s in Computer Science", "Software Engineering"],
     certifications := ["AWS Certified DevOps Engineer", "Docker Certified Associate",
       "CKA (Certified Kubernetes Administrator)"],
     experience_levels := [("entry", "0-2 years, focusing on CI/CD and basic infrastructure"),
       ("mid", "3-5 years, with experience in cloud platforms"),
       ("senior", "5+ years, leading DevOps strategy and architecture")],
     job_market_demand := "Very high demand across all industries" },
   { title := "Cloud Solutions Architect",
     required_skills := ["aws/azure/gcp", "cloud architecture", "networking", "security",
       "infrastructure as code"],
     preferred_skills := ["kubernetes", "serverless", "microservices", "devops",
       "cost optimization"],
     description := "Design and implement secure, scalable cloud infrastructure and solutions for organizations.",
     salary_range := some (120000, 220000),
     growth_outlook := "Much faster than average (24% growth projected)",
     education := ["Bachelor\x27s in Computer Science", "Cloud Computing"],
     certifications := ["AWS Solutions Architect Professional",
       "Google Cloud Professional Cloud Architect", "Azure Solutions Architect Expert"],
     experience_levels := [("mid", "3-5 years in cloud technologies"),
       ("senior", "5+ years, with architecture experience")],
     job_market_demand := "High demand, especially in enterprise environments" },
   { title := "Cybersecurity Analyst",
     required_skills := ["security", "networking", "linux", "python", "incident response",
       "vulnerability assessment"],
     preferred_skills := ["siem", "ids/ips", "penetration testing", "threat intelligence",
       "cloud security"],
     description := "Protect systems and networks from cyber threats through monitoring, analysis, and incident response.",
     salary_range := some (90000, 160000),
     growth_outlook := "Much faster than average (33% growth projected)",
     education := ["Cybersecurity", "Computer Science"],
     certifications := ["CISSP", "CEH", "CompTIA Security+", "CySA+"],
     experience_levels := [("entry", "0-2 years in IT or security"),
       ("mid", "3-5 years in security operations"),
       ("senior", "5+ years, leading security initiatives")],
     job_market_demand := "Extremely high demand across all sectors" },
   { title := "AI Research Scientist",
     required_skills := ["machine learning", "deep learning", "research", "python",
       "pytorch/tensorflow"],
     preferred_skills := ["reinforcement learning", "nlp", "computer vision", "publications",
       "mathematics"],
     description := "Conduct cutting-edge research in artificial intelligence and develop novel algorithms.",
     salary_range := some (120000, 220000),
     growth_outlook := "Much faster than average (22% growth projected)",
     education := ["PhD in Computer Science", "AI/ML"],
     certifications := ["Deep Learning Specialization", "Advanced AI Certification"],
     experience_levels := [("phd", "PhD with research experience"),
       ("research_scientist", "2+ years in AI research"),
       ("senior", "5+ years with significant publications")],
     job_market_demand := "High demand in research labs and tech companies" },
   { title := "Data Analyst",
     required_skills := ["sql", "excel", "data visualization", "statistics", "python/r"],
     preferred_skills := ["tableau", "power bi", "google analytics", "a/b testing"],
     description := "Interpret data and turn it into actionable business insights through analysis and visualization.",
     salary_range := some (65000, 120000),
     growth_outlook := "Much faster than average (25% growth projected)",
     education := ["Mathematics", "Statistics", "Business Analytics"],
     certifications := ["Google Data Analytics Certificate",
       "Microsoft Certified: Data Analyst Associate"],
     experience_levels := [("entry", "0-2 years in data analysis"),
       ("mid", "3-5 years with business domain expertise"),
       ("senior", "5+ years leading analytics initiatives")],
     job_market_demand := "High demand across all industries" }]

/-- The `CareerSuggestion` dataclass (career_suggestions.py lines 13-51),
with the optional metadata fields that `suggest_career_paths` attaches. -/
structure CareerSuggestion where
  title : String
  match_score : ℚ
  required_skills : List String
  matching_skills : List String
  missing_skills : List String
  description : String
  salary_range : Option (Int × Int)
  growth_outlook : String
  education : List String
  certifications : List String
  preferred_skills : List String
  matching_preferred_skills : List String
  missing_preferred_skills : List String
  job_market_demand : String
  experience_levels : List (String × String)
  current_experience_level : String
deriving Repr, DecidableEq

/-- Salary sub-record of the formatted suggestion dictionary. -/
structure SalaryView where
  salMin : Option Int
  salMax : Option Int
  formatted : String
deriving Repr, DecidableEq

/-- Formatted suggestion dictionary built by `format_career_suggestion`
(career_suggestions.py lines 361-386).  The "matching" entries are pairs
of characters because the Python code unpacks each matching-skill string
into a (name, relevance) pair, which only succeeds for two-character
strings. -/
structure FormattedSuggestion where
  title : String
  match_score : ℚ
  description : String
  salary_range : SalaryView
  growth_outlook : String
  job_market_demand : String
  matching : List (Char × Char)
  missing : List String
  matching_preferred : List String
  missing_preferred : List String
  education : List String
  certifications : List String
  experience_levels : List (String × String)
  current_experience_level : String
deriving Repr, DecidableEq

/-- Round half to even on a rational, Python `round(x)`. -/
def pyRoundInt (q : ℚ) : ℤ :=
  let f := ⌊q⌋
  let r := q - (f : ℚ)
  if r < 1 / 2 then f
  else if 1 / 2 < r then f + 1
  else if f % 2 = 0 then f else f + 1

/-- Python `round(x, d)` on rationals (the source applies it to floats;
the tie-to-even rule is the same). -/
def pyRound (q : ℚ) (d : Nat) : ℚ :=
  (pyRoundInt (q * (10 ^ d : ℕ)) : ℚ) / (10 ^ d : ℕ)

/-- Digit grouping of Python format spec `{v:,}` for a nonnegative value. -/
def commaGroupF : Nat → List Char → List Char
  | 0, ds => ds
  | fuel + 1, ds =>
    if ds.length ≤ 3 then ds
    else commaGroupF fuel (ds.take (ds.length - 3)) ++ ',' :: ds.drop (ds.length - 3)

def commaGroupAux (ds : List Char) : List Char :=
  commaGroupF ds.length ds

/-- Python `f"{v:,}"` for the integers of the salary table. -/
def commaFormat (v : Int) : String :=
  if v < 0 then "-" ++ String.mk (commaGroupAux (toString v.natAbs).data)
  else String.mk (commaGroupAux (toString v.natAbs).data)

/-- Python tuple unpacking `for skill, rel in matching_skills` where the
elements are strings: a two-character string unpacks into its two
characters, anything else raises a ValueError. -/
def unpackPairs : List String → Except String (List (Char × Char))
  | [] => .ok []
  | s :: rest =>
    match s.data with
    | [a, b] => (unpackPairs rest).map ((a, b) :: ·)
    | _ :: _ :: _ :: _ => .error "ValueError: too many values to unpack (expected 2)"
    | _ => .error "ValueError: not enough values to unpack (expected 2)"

/-- Embedding of `format_career_suggestion` (career_suggestions.py lines
361-386).  The dictionary comprehension over `suggestion.matching_skills`
unpacks each skill string into a (name, relevance) pair, so it raises a
ValueError whenever a matching skill is not exactly two characters long. -/
def format_career_suggestion (s : CareerSuggestion) : Except String FormattedSuggestion := do
  let matching ← unpackPairs s.matching_skills
  .ok { title := s.title
        match_score := pyRound s.match_score 1
        description := s.description
        salary_range :=
          { salMin := s.salary_range.map Prod.fst
            salMax := s.salary_range.map Prod.snd
            formatted :=
              match s.salary_range with
              | some (a, b) => "$" ++ commaFormat a ++ "-$" ++ commaFormat b
              | none => "Not specified" }
        growth_outlook := s.growth_outlook
        job_market_demand := s.job_market_demand
        matching := matching
        missing := s.missing_skills
        matching_preferred := s.matching_preferred_skills
        missing_preferred := s.missing_preferred_skills
        education := s.education
        certifications := s.certifications
        experience_levels := s.experience_levels
        current_experience_level := s.current_experience_level }

/-- Sort key of `suggestions.sort` (career_suggestions.py lines 489-495):
match score, then matching-skill count plus half the preferred count. -/
def suggestionKey (s : CareerSuggestion) : ℚ × ℚ :=
  (s.match_score, (s.matching_skills.length : ℚ) + (s.matching_preferred_skills.length : ℚ) * (5 / 10))

/-- Lexicographic strict comparison of sort keys. -/
def keyLt (a b : ℚ × ℚ) : Bool :=
  a.1 < b.1 || (a.1 = b.1 && a.2 < b.2)

/-- Stable descending insertion used to model Python `list.sort(key=...,
reverse=True)`: an element moves past exactly the elements with a
strictly smaller key. -/
def insertDesc (x : CareerSuggestion) : List CareerSuggestion → List CareerSuggestion
  | [] => [x]
  | y :: ys => if keyLt (suggestionKey y) (suggestionKey x) then x :: y :: ys
               else y :: insertDesc x ys

/-- Stable descending sort (Python `list.sort(..., reverse=True)`). -/
def sortDesc (l : List CareerSuggestion) : List CareerSuggestion :=
  l.foldl (fun acc x => insertDesc x acc) []

/-- Placeholder suggestion returned when no skills are extracted
(career_suggestions.py lines 423-436). -/
def placeholderSuggestion (experience_level : String) : FormattedSuggestion :=
  { title := "General IT Professional"
    match_score := 0
    description := "Consider adding more technical skills to your resume for better career matching."
    salary_range := { salMin := none, salMax := none, formatted := "Not specified" }
    growth_outlook := "Average (5-7% growth projected)"
    job_market_demand := "Medium"
    matching := []
    missing := []
    matching_preferred := []
    missing_preferred := []
    education := []
    certifications := []
    experience_levels := []
    current_experience_level := experience_level }

/-- Embedding of `suggest_career_paths` (career_suggestions.py lines
388-498) with the default career catalog and no career-interest filter.
Exceptions escaping the final formatting comprehension are modelled with
`Except`. -/
def suggest_career_paths (resume_text : String) (top_n : Nat)
    (min_match_threshold : ℚ) (min_required_skills : Nat)
    (experience_level_arg : Option String) :
    Except String (List FormattedSuggestion) :=
  if resume_text = "" then .ok []
  else
    let experience_level := experience_level_arg.getD (analyze_experience_level resume_text)
    let resume_skills := (extract_skills resume_text).map lowerS
    if resume_skills = [] then .ok [placeholderSuggestion experience_level]
    else
      let suggestions := career_data.foldl (fun acc career_info =>
        let r := calculate_match_score resume_skills career_info
        let match_score := r.1
        let skill_analysis := r.2.1
        if match_score < min_match_threshold ∨
            skill_analysis.matching.length < min_required_skills then acc
        else
          let exp_levels := career_info.experience_levels
          let boosted :=
            if (exp_levels.map Prod.fst).contains experience_level ∧
                experience_level ≠ "entry" then
              pyMin (match_score * (11 / 10)) 1
            else match_score
          acc ++ [{ title := career_info.title
                    match_score := pyMin (boosted * 100) 100
                    required_skills := career_info.required_skills
                    matching_skills := skill_analysis.matching
                    missing_skills := skill_analysis.missing
                    description := career_info.description
                    salary_range := career_info.salary_range
                    growth_outlook := career_info.growth_outlook
                    education := career_info.education
                    certifications := career_info.certifications
                    preferred_skills := career_info.preferred_skills
                    matching_preferred_skills := skill_analysis.preferred
                    missing_preferred_skills := skill_analysis.missing_preferred
                    job_market_demand := career_info.job_market_demand
                    experience_levels := exp_levels
                    current_experience_level := experience_level }]) []
      (sortDesc suggestions).take top_n |>.mapM format_career_suggestion

end Cavro.Career

namespace Cavro.Analyzer

open Cavro

/-!
Embedding of `extract_experience` from `cavro/modules/resume_analyzer.py`
(lines 275-360).  All pattern matching is performed on a lowercased copy
of the text (the patterns carry `re.IGNORECASE`); the matched slices are
taken from the original text by length.
-/

/-- The `Experience` record fields produced by `extract_experience`
(resume_analyzer.py lines 303-311). -/
structure Experience where
  title : String
  company : String
  location : String
  start_date : String
  end_date : String
  is_current : Bool
  description : String
deriving Repr, DecidableEq

/-- Month alternation `(?:jan|feb|mar|apr|may|jun|jul|aug|sep|oct|nov|dec)`
tested on lowercased text. -/
def monthAt (low : List Char) : Bool :=
  ["jan", "feb", "mar", "apr", "may", "jun",
   "jul", "aug", "sep", "oct", "nov", "dec"].any
    (fun m => m.data.isPrefixOf low)

/-- Greedy run of `[a-z]*` on lowercased text. -/
def letterRun (low : List Char) : Nat :=
  (low.takeWhile fun c => 'a' ≤ c && c ≤ 'z').length

/-- Greedy run of `[\s-]*`. -/
def spaceDashRun (low : List Char) : Nat :=
  (low.takeWhile fun c => pyIsSpace c || c = '-').length

/-- Greedy run of `[\s,]*`. -/
def spaceCommaRun (low : List Char) : Nat :=
  (low.takeWhile fun c => pyIsSpace c || c = ',').length

/-- Greedy run of `\s*`. -/
def spaceRun (low : List Char) : Nat :=
  (low.takeWhile pyIsSpace).length

/-- Greedy run of `\d+`. -/
def digitRun (low : List Char) : Nat :=
  (low.takeWhile pyIsDigit).length

/-- Tail `[\s,]*\d{4}` of the day-plus-year alternative. -/
def commaYearTail (low : List Char) : Option Nat :=
  let s := spaceCommaRun low
  if 4 ≤ digitRun (low.drop s) then some (s + 4) else none

/-- Day-count alternative `\d{1,2}(?:st|nd|rd|th)?[\s,]*\d{4}` entered
with a fixed number `k` of day digits; the ordinal suffix is greedy. -/
def dayYearAt (low : List Char) (k : Nat) : Option Nat :=
  if k ≤ digitRun low then
    let r1 := low.drop k
    let withSuffix : Option Nat :=
      if ["st", "nd", "rd", "th"].any (fun s => s.data.isPrefixOf r1) then
        (commaYearTail (r1.drop 2)).map (· + 2)
      else none
    match withSuffix with
    | some n => some (k + n)
    | none => (commaYearTail r1).map (· + k)
  else none

/-- Optional year group `(?:\d{4}|\d{1,2}(?:st|nd|rd|th)?[\s,]*\d{4})?`:
the four-digit alternative is tried first, then two day digits, then one,
then the group matches empty (length 0). -/
def yearOptLen (low : List Char) : Nat :=
  if 4 ≤ digitRun low then 4
  else
    match dayYearAt low 2 with
    | some n => n
    | none =>
      match dayYearAt low 1 with
      | some n => n
      | none => 0

/-- Optional separator `(?:\s*(?:-|–|to)\s*)?`: consumed length, 0 when
the inner alternation fails. -/
def sepOptLen (low : List Char) : Nat :=
  let s := spaceRun low
  match low.drop s with
  | '-' :: rest => s + 1 + spaceRun rest
  | '–' :: rest => s + 1 + spaceRun rest
  | 't' :: 'o' :: rest => s + 2 + spaceRun rest
  | _ => 0

/-- Start-group body after a month word has matched:
`[a-z]*[\s-]*(?:year-alternatives)?`, all greedy, never failing. -/
def monthDateLen (low : List Char) : Nat :=
  let a := letterRun (low.drop 3)
  let d := spaceDashRun (low.drop (3 + a))
  let y := yearOptLen (low.drop (3 + a + d))
  3 + a + d + y

/-- Optional end group
`(?P<end>(?:month[a-z]*[\s-]*(?:...)?)|present|current|now)?`:
`none` models a nonparticipating group. -/
def dateEndLen (low : List Char) : Option Nat :=
  if monthAt low then some (monthDateLen low)
  else if "present".data.isPrefixOf low then some 7
  else if "current".data.isPrefixOf low then some 7
  else if "now".data.isPrefixOf low then some 3
  else none

/-- Leftmost search for the date pattern of `extract_experience`
(resume_analyzer.py lines 314-319): returns the offsets
(prefix length, start-group length, separator length, end-group length). -/
def dateSearch (low : List Char) (pos : Nat) : Option (Nat × Nat × Nat × Option Nat) :=
  if monthAt low then
    let s := monthDateLen low
    let sep := sepOptLen (low.drop s)
    some (pos, s, sep, dateEndLen (low.drop (s + sep)))
  else
    match low with
    | [] => none
    | _ :: t => dateSearch t (pos + 1)

/-- Group-2 tail `[^\n]+` (greedy): length of the run of characters other
than newline, `none` when empty. -/
def nonNlRun (low : List Char) : Option Nat :=
  match low.takeWhile (fun c => c ≠ '\n') with
  | [] => none
  | r => some r.length

/-- Separator alternation `(?:\s+at\s+|,|\n)` of the title/company
pattern (resume_analyzer.py line 328), followed by the group-2 run; the
trailing `\s+` of the first alternative gives one character back when the
greedy run would leave nothing for group 2. -/
def titleSepAt (low : List Char) : Option (Nat × Nat) :=
  let viaAt : Option (Nat × Nat) :=
    let s1 := spaceRun low
    if s1 = 0 then none
    else if "at".data.isPrefixOf (low.drop s1) then
      let r := low.drop (s1 + 2)
      let s2 := spaceRun r
      if s2 = 0 then none
      else
        match nonNlRun (r.drop s2) with
        | some g2 => some (s1 + 2 + s2, g2)
        | none =>
          if 2 ≤ s2 then
            match nonNlRun (r.drop (s2 - 1)) with
            | some g2 => some (s1 + 2 + s2 - 1, g2)
            | none => none
          else none
    else none
  match viaAt with
  | some r => some r
  | none =>
    match low with
    | ',' :: rest => (nonNlRun rest).map (fun g2 => (1, g2))
    | '\n' :: rest => (nonNlRun rest).map (fun g2 => (1, g2))
    | _ => none

/-- Anchored lazy search `^(.*?)(?:\s+at\s+|,|\n)([^\n]+)`: the smallest
group-1 length for which a separator and a nonempty group 2 follow. -/
def titleCompanyAt (low : List Char) (g1 : Nat) : Option (Nat × Nat × Nat) :=
  match titleSepAt low with
  | some (sep, g2) => some (g1, sep, g2)
  | none =>
    match low with
    | [] => none
    | _ :: t => titleCompanyAt t (g1 + 1)

/-- Location pattern `\b(?:location|based in|in)[:\s]+([^\n,]+)`
(resume_analyzer.py line 334): greedy `[:\s]+` run, giving one character
back when the group would otherwise be empty; the group is the run of
characters other than newline and comma. -/
def locationKw (low : List Char) : Option Nat :=
  if "location".data.isPrefixOf low then some 8
  else if "based in".data.isPrefixOf low then some 8
  else if "in".data.isPrefixOf low then some 2
  else none

def locationGroupRun (low : List Char) : Option Nat :=
  match low.takeWhile (fun c => c ≠ '\n' && c ≠ ',') with
  | [] => none
  | r => some r.length

def locationAt (low : List Char) : Option (Nat × Nat) :=
  match locationKw low with
  | none => none
  | some k =>
    let r := low.drop k
    let s := (r.takeWhile fun c => c = ':' || pyIsSpace c).length
    if s = 0 then none
    else
      match locationGroupRun (r.drop s) with
      | some g => some (k + s, g)
      | none =>
        if 2 ≤ s then
          match locationGroupRun (r.drop (s - 1)) with
          | some g => some (k + s - 1, g)
          | none => none
        else none

/-- Leftmost search for the location pattern, with its leading word
boundary. -/
def locationSearch (prev : Option Char) (low : List Char) (pos : Nat) :
    Option (Nat × Nat × Nat) :=
  let here : Option (Nat × Nat) :=
    match low with
    | [] => none
    | c :: _ =>
      if wordBoundary prev (some c) then locationAt low else none
  match here with
  | some (pre, g) => some (pos, pre, g)
  | none =>
    match low with
    | [] => none
    | c :: t => locationSearch (some c) t (pos + 1)

end Cavro.Analyzer

namespace Cavro.Analyzer

open Cavro

/-- First element of a list of options that is `some`. -/
def firstSome (l : List α) (f : α → Option β) : Option β :=
  match l with
  | [] => none
  | x :: t =>
    match f x with
    | some b => some b
    | none => firstSome t f

/-- Lookahead `\n\n|$` closing the lazy section group
(resume_analyzer.py line 290); `$` matches at the end of the text or
before a final newline. -/
def lookSectionEnd (r : List Char) : Bool :=
  "\n\n".data.isPrefixOf r || r = [] || r = ['\n']

/-- Length of the lazy `(.*?)` group: smallest extension after which the
section-end lookahead holds. -/
def lazySectionLen (l : List Char) : Nat :=
  if lookSectionEnd l then 0
  else
    match l with
    | [] => 0
    | _ :: t => lazySectionLen t + 1

/-- Header alternation of the experience-section pattern
(resume_analyzer.py line 290), tried in source order on lowercased text. -/
def expHeaderAt (low : List Char) : Option Nat :=
  if "experience".data.isPrefixOf low then some 10
  else if "work experience".data.isPrefixOf low then some 15
  else if "professional experience".data.isPrefixOf low then some 23
  else if "employment history".data.isPrefixOf low then some 18
  else none

/-- Leftmost search for the experience-section pattern; returns the
group-1 slice of the original text. -/
def expSectionGroup (orig : List Char) : Option (List Char) :=
  match expHeaderAt (lowerL orig) with
  | some h =>
    let content := orig.drop h
    some (content.take (lazySectionLen content))
  | none =>
    match orig with
    | [] => none
    | _ :: t => expSectionGroup t

/-- Lookahead `\n\s*\n`: a newline whose following whitespace run
contains another newline. -/
def lookBlankLine (r : List Char) : Bool :=
  match r with
  | '\n' :: rest => (rest.takeWhile pyIsSpace).contains '\n'
  | _ => false

/-- Zero-width split lookahead `(?=\d{4}|present|current|\n\s*\n)` of
resume_analyzer.py line 297 (case-sensitive). -/
def entrySplitLook (r : List Char) : Bool :=
  4 ≤ digitRun r || "present".data.isPrefixOf r || "current".data.isPrefixOf r ||
    lookBlankLine r

/-- Python `re.split` on a zero-width lookahead pattern: the text is cut
at every position where the lookahead matches (a match at position 0
yields a leading empty piece). -/
def zwSplitAux (look : List Char → Bool) (acc : List Char) : List Char → List (List Char)
  | [] => [acc.reverse]
  | c :: t =>
    if look (c :: t) then acc.reverse :: zwSplitAux look [c] t
    else zwSplitAux look (c :: acc) t

def zwSplit (look : List Char → Bool) (l : List Char) : List (List Char) :=
  zwSplitAux look [] l

/-- Required separator `\s*(?:-|–|to)\s*` of the date-removal pattern
(resume_analyzer.py lines 347-348). -/
def sepReqLen (low : List Char) : Option Nat :=
  let s := spaceRun low
  match low.drop s with
  | '-' :: rest => some (s + 1 + spaceRun rest)
  | '–' :: rest => some (s + 1 + spaceRun rest)
  | 't' :: 'o' :: rest => some (s + 2 + spaceRun rest)
  | _ => none

/-- Candidate lengths of the optional year group in engine order: the
four-digit alternative, then the day-digit alternatives (two digits then
one, ordinal suffix first), then the empty match. -/
def yearCandidates (low : List Char) : List Nat :=
  let dayCand : Nat → List Nat := fun k =>
    if k ≤ digitRun low then
      let r1 := low.drop k
      (if ["st", "nd", "rd", "th"].any (fun s => s.data.isPrefixOf r1) then
        match commaYearTail (r1.drop 2) with
        | some n => [k + 2 + n]
        | none => []
      else []) ++
      (match commaYearTail r1 with
       | some n => [k + n]
       | none => [])
    else []
  (if 4 ≤ digitRun low then [4] else []) ++ dayCand 2 ++ dayCand 1 ++ [0]

/-- Attempted match of the date-removal pattern of resume_analyzer.py
lines 346-351 at one position: month word, greedy `[a-z]*` and `[\s-]*`
with full backtracking, optional year, required separator, required end
alternative.  Returns the matched length. -/
def dateRangeMatchLen (low : List Char) : Option Nat :=
  if monthAt low then
    let aMax := letterRun (low.drop 3)
    firstSome ((List.range (aMax + 1)).reverse) fun a =>
      let base := 3 + a
      let jMax := spaceDashRun (low.drop base)
      firstSome ((List.range (jMax + 1)).reverse) fun j =>
        let p := base + j
        firstSome (yearCandidates (low.drop p)) fun y =>
          match sepReqLen (low.drop (p + y)) with
          | none => none
          | some sep =>
            match dateEndLen (low.drop (p + y + sep)) with
            | none => none
            | some e => some (p + y + sep + e)
  else none

/-- Python `re.sub` of the date-removal pattern with the empty
replacement: leftmost nonoverlapping matches are removed. -/
def dateRangeSubF : Nat → List Char → List Char
  | 0, l => l
  | fuel + 1, orig =>
    match orig with
    | [] => []
    | c :: t =>
      match dateRangeMatchLen (lowerL (c :: t)) with
      | some n =>
        -- a match of length n ≥ 1 removes the head and n - 1 further characters
        if n = 0 then c :: dateRangeSubF fuel t
        else dateRangeSubF fuel (t.drop (n - 1))
      | none => c :: dateRangeSubF fuel t

def dateRangeSub (orig : List Char) : List Char :=
  dateRangeSubF orig.length orig

/-- Split on newline characters (Python `description.split("\n")`). -/
def splitNl (l : List Char) : List (List Char) :=
  match l with
  | [] => [[]]
  | '\n' :: t => [] :: splitNl t
  | c :: t =>
    match splitNl t with
    | [] => [[c]]
    | w :: ws => (c :: w) :: ws

/-- Python `"\n".join(parts)`. -/
def joinNl (ws : List (List Char)) : List Char :=
  match ws with
  | [] => []
  | [w] => w
  | w :: rest => w ++ '\n' :: joinNl rest

/-- Line cleanup of resume_analyzer.py line 353:
`"\n".join(line.strip() for line in description.split("\n") if line.strip())`. -/
def cleanLines (l : List Char) : List Char :=
  joinNl (((splitNl l).map pyStrip).filter (· ≠ []))

/-- Construction of one `Experience` record from one split entry
(resume_analyzer.py lines 303-355). -/
def buildExperience (entry : List Char) : Experience :=
  let low := lowerL entry
  let dm := dateSearch low 0
  let start_date :=
    match dm with
    | some (pos, sLen, _, _) => String.mk (pyStrip ((entry.drop pos).take sLen))
    | none => ""
  let end_date :=
    match dm with
    | some (pos, sLen, sep, some eLen) =>
      String.mk (lowerL (pyStrip (((entry.drop (pos + sLen + sep)).take eLen))))
    | _ => ""
  let is_current := ["present", "current", "now"].contains end_date
  let tc := titleCompanyAt low 0
  let title :=
    match tc with
    | some (g1, _, _) => String.mk (pyStrip (entry.take g1))
    | none => ""
  let company :=
    match tc with
    | some (g1, sep, g2) => String.mk (pyStrip ((entry.drop (g1 + sep)).take g2))
    | none => ""
  let location :=
    match locationSearch none low 0 with
    | some (pos, pre, g) => String.mk (pyStrip ((entry.drop (pos + pre)).take g))
    | none => ""
  let descBase :=
    match tc with
    | some (g1, sep, g2) => pyStrip (entry.drop (g1 + sep + g2))
    | none => pyStrip entry
  let descAfterDates :=
    match dm with
    | some _ => pyStrip (dateRangeSub descBase)
    | none => descBase
  { title := title
    company := company
    location := location
    start_date := start_date
    end_date := end_date
    is_current := is_current
    description := String.mk (cleanLines descAfterDates) }

/-- Embedding of `extract_experience` (resume_analyzer.py lines 275-360):
locate the experience section, split it into entries on the zero-width
lookahead, skip entries of fewer than five words, and build a record per
remaining entry. -/
def extract_experience (text : String) : List Experience :=
  match expSectionGroup text.data with
  | none => []
  | some content =>
    let entries := zwSplit entrySplitLook (pyStrip content)
    (entries.filter (fun e => ¬ (pySplitWs e).length < 5)).map buildExperience

end Cavro.Analyzer

namespace Cavro.Parser

open Cavro Cavro.Analyzer

/-!
Embedding of `clean_resume_text` from `cavro/modules/resume_parser.py`
(lines 809-909).  Each `re.sub` pass becomes a scan over the current
text: a matcher reports the length of a match attempted at the current
position, and the driver replaces matched segments, threading the
previous character for word-boundary assertions.
-/

/-- Generic `re.sub` driver: leftmost nonoverlapping matches are replaced
by `repl`.  Matches are found against the scanned text only (replacement
text is never rescanned), as in Python.  The fuel argument, instantiated
with the text length, makes the recursion structural. -/
def subAllF (m : Option Char → List Char → Option Nat) (repl : List Char) :
    Nat → Option Char → List Char → List Char
  | 0, _, l => l
  | fuel + 1, prev, l =>
    match l with
    | [] => []
    | c :: t =>
      match m prev (c :: t) with
      | some n =>
        if n = 0 then c :: subAllF m repl fuel (some c) t
        else
          repl ++ subAllF m repl fuel
            (some ((c :: t).getD (n - 1) c)) (t.drop (n - 1))
      | none => c :: subAllF m repl fuel (some c) t

def subAll (m : Option Char → List Char → Option Nat) (repl : List Char)
    (prev : Option Char) (l : List Char) : List Char :=
  subAllF m repl l.length prev l

/-- Lazy `.*?` (DOTALL) length up to a closing literal: smallest prefix
after which the literal starts, `none` when the literal never occurs. -/
def lazyUntilLit (lit : List Char) (low : List Char) : Option Nat :=
  if lit.isPrefixOf low then some 0
  else
    match low with
    | [] => none
    | _ :: t => (lazyUntilLit lit t).map (· + 1)

/-- Matcher for `<style[^>]*>.*?</style>` (DOTALL, IGNORECASE). -/
def styleBlockM (_ : Option Char) (s : List Char) : Option Nat :=
  let low := lowerL s
  if "<style".data.isPrefixOf low then
    let attrs := ((low.drop 6).takeWhile (· ≠ '>')).length
    match (low.drop (6 + attrs)).head? with
    | some '>' =>
      (lazyUntilLit "</style>".data (low.drop (6 + attrs + 1))).map
        (fun m => 6 + attrs + 1 + m + 8)
    | _ => none
  else none

/-- Matcher for `<script[^>]*>.*?</script>` (DOTALL, IGNORECASE). -/
def scriptBlockM (_ : Option Char) (s : List Char) : Option Nat :=
  let low := lowerL s
  if "<script".data.isPrefixOf low then
    let attrs := ((low.drop 7).takeWhile (· ≠ '>')).length
    match (low.drop (7 + attrs)).head? with
    | some '>' =>
      (lazyUntilLit "</script>".data (low.drop (7 + attrs + 1))).map
        (fun m => 7 + attrs + 1 + m + 9)
    | _ => none
  else none

/-- Matcher for `<[^>]+>`. -/
def tagM (_ : Option Char) (s : List Char) : Option Nat :=
  match s with
  | '<' :: t =>
    let inner := (t.takeWhile (· ≠ '>')).length
    if inner = 0 then none
    else
      match (t.drop inner).head? with
      | some '>' => some (1 + inner + 1)
      | _ => none
  | _ => none

/-- Matcher for `style="[^"]*"` (case-sensitive). -/
def styleAttrM (_ : Option Char) (s : List Char) : Option Nat :=
  if "style=\"".data.isPrefixOf s then
    let inner := ((s.drop 7).takeWhile (· ≠ '"')).length
    match (s.drop (7 + inner)).head? with
    | some '"' => some (7 + inner + 1)
    | _ => none
  else none

/-- Matcher for `&[a-z0-9]+;` (case-sensitive). -/
def entityM (_ : Option Char) (s : List Char) : Option Nat :=
  match s with
  | '&' :: t =>
    let inner := (t.takeWhile (fun c => ('a' ≤ c && c ≤ 'z') || c.isDigit)).length
    if inner = 0 then none
    else
      match (t.drop inner).head? with
      | some ';' => some (1 + inner + 1)
      | _ => none
  | _ => none

/-- Matcher for `\s+`. -/
def wsRunM (_ : Option Char) (s : List Char) : Option Nat :=
  let n := (s.takeWhile pyIsSpace).length
  if n = 0 then none else some n

/-- Trailing word boundary after `n` consumed characters whose last
character is a word character: the next character must not be one. -/
def trailB (low : List Char) (n : Nat) : Bool :=
  !sideIsWord ((low.drop n).head?)

/-- Word-literal alternative with a trailing boundary. -/
def litWB (w : List Char) (low : List Char) : Option Nat :=
  if w.isPrefixOf low && trailB low w.length then some w.length else none

/-- Alternative `w1\s+w2` with a trailing boundary. -/
def pairWB (w1 w2 : List Char) (low : List Char) : Option Nat :=
  if w1.isPrefixOf low then
    let r := low.drop w1.length
    let k := spaceRun r
    if 1 ≤ k && w2.isPrefixOf (r.drop k) && trailB r (k + w2.length) then
      some (w1.length + k + w2.length)
    else none
  else none

/-- Alternative `w1\s+long|w1\s+short` arising from an optional greedy
suffix (`details?`, `info(?:rmation)?`): the long form is tried first. -/
def pairOptWB (w1 long short : List Char) (low : List Char) : Option Nat :=
  if w1.isPrefixOf low then
    let r := low.drop w1.length
    let k := spaceRun r
    if 1 ≤ k then
      match litWB long (r.drop k) with
      | some n => some (w1.length + k + n)
      | none => (litWB short (r.drop k)).map (w1.length + k + ·)
    else none
  else none

/-- Matcher for header pattern 1 (resume_parser.py line 870), IGNORECASE,
alternatives in source order, with word boundaries on both sides. -/
def hdr1M (prev : Option Char) (s : List Char) : Option Nat :=
  if sideIsWord prev then none
  else
    let low := lowerL s
    match pairOptWB "personal".data "details".data "detail".data low with
    | some n => some n
    | none =>
    match pairOptWB "contact".data "information".data "info".data low with
    | some n => some n
    | none =>
      firstSome ["summary", "experience", "education", "skills", "projects",
        "certifications", "awards", "publications", "languages", "interests",
        "references"] (fun w => litWB w.data low)

/-- Matcher for header pattern 2 (resume_parser.py line 871). -/
def hdr2M (prev : Option Char) (s : List Char) : Option Nat :=
  if sideIsWord prev then none
  else
    let low := lowerL s
    firstSome [("work", "history"), ("employment", "history"),
      ("professional", "experience"), ("academic", "background")]
      (fun p => pairWB p.1.data p.2.data low)

/-- Matcher for header pattern 3 (resume_parser.py line 872). -/
def hdr3M (prev : Option Char) (s : List Char) : Option Nat :=
  if sideIsWord prev then none
  else
    let low := lowerL s
    match firstSome [("technical", "skills"), ("soft", "skills"),
      ("programming", "languages")] (fun p => pairWB p.1.data p.2.data low) with
    | some n => some n
    | none => firstSome ["frameworks", "tools"] (fun w => litWB w.data low)

/-- Lookahead `\n\s*\n|$` of header pattern 4; `$` matches at the end of
the text or before a final newline. -/
def look4 (r : List Char) : Bool :=
  lookBlankLine r || r = [] || r = ['\n']

/-- Lazy `.*?` (no DOTALL: a newline cannot be consumed) up to the
pattern-4 lookahead. -/
def lazyLine4 (low : List Char) : Option Nat :=
  if look4 low then some 0
  else
    match low with
    | '\n' :: _ => none
    | [] => none
    | _ :: t => (lazyLine4 t).map (· + 1)

/-- Matcher for header pattern 4 (resume_parser.py line 873):
`\b(?:name|address|phone|email|linkedin|github|portfolio)\s*:.*?(?=\n\s*\n|$)`. -/
def hdr4M (prev : Option Char) (s : List Char) : Option Nat :=
  if sideIsWord prev then none
  else
    let low := lowerL s
    match firstSome ["name", "address", "phone", "email", "linkedin", "github",
      "portfolio"] (fun w => if w.data.isPrefixOf low then some w.data.length else none) with
    | none => none
    | some k =>
      let r := low.drop k
      let sp := spaceRun r
      match (r.drop sp).head? with
      | some ':' => (lazyLine4 (r.drop (sp + 1))).map (fun m => k + sp + 1 + m)
      | _ => none

/-- Matcher for header pattern 5 (resume_parser.py line 874):
`\b(?:page\s*\d+|confidential|resume|cv|curriculum vitae)\b`. -/
def hdr5M (prev : Option Char) (s : List Char) : Option Nat :=
  if sideIsWord prev then none
  else
    let low := lowerL s
    let pageAlt : Option Nat :=
      if "page".data.isPrefixOf low then
        let r := low.drop 4
        let sp := spaceRun r
        let d := digitRun (r.drop sp)
        if 1 ≤ d && trailB r (sp + d) then some (4 + sp + d) else none
      else none
    match pageAlt with
    | some n => some n
    | none =>
      firstSome ["confidential", "resume", "cv", "curriculum vitae"]
        (fun w => litWB w.data low)

/-- Character class of the email local part, `[A-Za-z0-9._%+-]`. -/
def emailLocalChar (c : Char) : Bool :=
  c.isAlphanum || c = '.' || c = '_' || c = '%' || c = '+' || c = '-'

/-- Character class of the email domain, `[A-Za-z0-9.-]`. -/
def emailDomChar (c : Char) : Bool :=
  c.isAlphanum || c = '.' || c = '-'

/-- Character class `[A-Z|a-z]` of the top-level-domain part (the class
literally contains the bar character). -/
def tldChar (c : Char) : Bool :=
  c.isAlpha || c = '|'

/-- Matcher for the email pattern
`\b[A-Za-z0-9._%+-]+@[A-Za-z0-9.-]+\.[A-Z|a-z]{2,}\b`
(resume_parser.py line 881): greedy local and domain runs, with the
engine backtracking of the domain run against `\.` and of the `{2,}`
repetition against the final word boundary. -/
def emailM (prev : Option Char) (s : List Char) : Option Nat :=
  match s.head? with
  | none => none
  | some c0 =>
    if wordBoundary prev (some c0) then
      let locLen := (s.takeWhile emailLocalChar).length
      if locLen = 0 then none
      else
        match (s.drop locLen).head? with
        | some '@' =>
          let afterAt := s.drop (locLen + 1)
          let domMax := (afterAt.takeWhile emailDomChar).length
          firstSome (((List.range domMax).reverse).filter (1 ≤ ·)) (fun d =>
            match (afterAt.drop d).head? with
            | some '.' =>
              let tldRest := afterAt.drop (d + 1)
              let tMax := (tldRest.takeWhile tldChar).length
              (firstSome (((List.range (tMax + 1)).reverse).filter (2 ≤ ·)) (fun tl =>
                match tldRest.getD (tl - 1) ' ' with
                | last =>
                  if wordBoundary (some last) ((tldRest.drop tl).head?) then
                    some (locLen + 1 + d + 1 + tl)
                  else none))
            | _ => none)
        | _ => none
    else none

/-- Matcher for the URL pattern `https?://\S+|www\.\S+`
(resume_parser.py line 882), case-sensitive. -/
def urlM (_ : Option Char) (s : List Char) : Option Nat :=
  let viaHttp : Option Nat :=
    if "https://".data.isPrefixOf s then
      let n := ((s.drop 8).takeWhile (fun c => !pyIsSpace c)).length
      if n = 0 then none else some (8 + n)
    else if "http://".data.isPrefixOf s then
      let n := ((s.drop 7).takeWhile (fun c => !pyIsSpace c)).length
      if n = 0 then none else some (7 + n)
    else none
  match viaHttp with
  | some n => some n
  | none =>
    if "www.".data.isPrefixOf s then
      let n := ((s.drop 4).takeWhile (fun c => !pyIsSpace c)).length
      if n = 0 then none else some (4 + n)
    else none

/-- Kept special characters of cleanup step 7 (resume_parser.py lines
886-887): the negated class over word characters, whitespace and the
symbols listed in `keep_chars` is replaced by a space, so a character
survives iff it is a word character, whitespace, or one of the kept
symbols (apostrophe, at, hash, percent, ampersand, star, plus, equals,
hyphen, slash, backslash). -/
def keepChar (c : Char) : Bool :=
  pyIsWord c || pyIsSpace c || c = Char.ofNat 39 || c = '@' || c = '#' || c = '%' ||
    c = '&' || c = '*' || c = '+' || c = '=' || c = '-' || c = '/' || c = '\\'

/-- Matcher for the one-character negated class of cleanup step 7. -/
def specialM (_ : Option Char) (s : List Char) : Option Nat :=
  match s.head? with
  | some c => if keepChar c then none else some 1
  | none => none

/-- Python `unicodedata.normalize("NFKC", text)` (resume_parser.py line
866).  NFKC normalization is the identity on ASCII strings; the library
call is modelled by that identity, which is exact for every input
evaluated in this file. -/
def nfkc (l : List Char) : List Char :=
  l

/-- The substitution stages of `clean_resume_text` (resume_parser.py
lines 815-884), before the final whitespace collapse and strip: HTML
style/script/tag/attribute/entity removal, whitespace-run collapse,
non-printable filtering, NFKC, section-header removal, email/URL
removal, and special-character replacement, in source order. -/
def cleanStages (l : List Char) : List Char :=
  let t1 := subAll styleBlockM [] none l
  let t2 := subAll scriptBlockM [] none t1
  let t3 := subAll tagM [' '] none t2
  let t4 := subAll styleAttrM [] none t3
  let t5 := subAll entityM [' '] none t4
  let t6 := subAll wsRunM [' '] none t5
  let t7 := t6.filter (fun c => pyIsPrintable c || c = '\n' || c = '\r' || c = '\t')
  let t8 := nfkc t7
  let t9 := subAll hdr1M [] none t8
  let t10 := subAll hdr2M [] none t9
  let t11 := subAll hdr3M [] none t10
  let t12 := subAll hdr4M [] none t11
  let t13 := subAll hdr5M [] none t12
  let t14 := subAll emailM [] none t13
  let t15 := subAll urlM [] none t14
  subAll specialM [' '] none t15

/-- Embedding of `clean_resume_text` (resume_parser.py lines 809-909).
The cleanup steps of the source run in order; the `try` body cannot
raise on a string input, so the fallback path of lines 902-909 is dead
code for string inputs and the function is total.  Line 887 splits on
whitespace and rejoins with single spaces; line 890 strips the ends. -/
def clean_resume_text (text : String) : String :=
  if text = "" then ""
  else String.mk (pyStrip (joinSpace (pySplitWs (cleanStages text.data))))

end Cavro.Parser

namespace Cavro.Interview

open Cavro Cavro.Analyzer

/-!
Embedding of `cavro/modules/interview_prep.py`: `extract_technologies`
and `generate_questions`.  No `data/interview_questions.json` file ships
with the repository, so `load_question_bank` always returns the built-in
default bank embedded below.  The call to `random.shuffle` is modelled by
a shuffle parameter, and exceptions with `Except`.
-/

/-- The `InterviewQuestion` dataclass (interview_prep.py lines 14-22). -/
structure InterviewQuestion where
  question : String
  category : String
  difficulty : String
  tags : List String
  answer_guidance : Option String
  follow_up_questions : Option (List String)
deriving Repr, DecidableEq

/-- One record of the default question bank. -/
structure QBankEntry where
  question : String
  difficulty : String
  tags : List String
  answer_guidance : Option String := none
  follow_up_questions : Option (List String) := none
deriving Repr, DecidableEq

/-- Default question bank, `programming_languages` section
(interview_prep.py lines 37-73). -/
def bankLanguages : List (String × List QBankEntry) :=
  [("python",
    [{ question := "Explain Python\x27s Global Interpreter Lock (GIL) and its implications.",
       difficulty := "intermediate",
       tags := ["concurrency", "performance", "cpython"],
       answer_guidance := some "Discuss what GIL is, why it exists, and how it affects multi-threaded Python programs." },
     { question := "What are Python decorators and how would you use them?",
       difficulty := "intermediate",
       tags := ["functions", "syntax", "design patterns"],
       answer_guidance := some "Explain the concept of decorators, their syntax, and common use cases like logging, timing, and access control." },
     { question := "How does Python manage memory?",
       difficulty := "advanced",
       tags := ["memory management", "performance"],
       answer_guidance := some "Discuss reference counting, garbage collection, and memory allocation in Python." }]),
   ("javascript",
    [{ question := "Explain the event loop in JavaScript.",
       difficulty := "intermediate",
       tags := ["asynchronous", "concurrency"],
       answer_guidance := some "Describe how the call stack, callback queue, and event loop work together." }]),
   ("java",
    [{ question := "What is the difference between an interface and an abstract class in Java?",
       difficulty := "intermediate",
       tags := ["OOP", "inheritance", "abstraction"] }])]

/-- Default question bank, `data_science` section (lines 74-94). -/
def bankDataScience : List (String × List QBankEntry) :=
  [("machine_learning",
    [{ question := "Explain the bias-variance tradeoff.",
       difficulty := "intermediate",
       tags := ["modeling", "theory"] },
     { question := "What is the difference between bagging and boosting?",
       difficulty := "intermediate",
       tags := ["ensemble methods", "algorithms"] }]),
   ("deep_learning",
    [{ question := "What is the vanishing gradient problem and how can it be addressed?",
       difficulty := "advanced",
       tags := ["neural networks", "training", "optimization"] }])]

/-- Default question bank, `system_design` section (lines 95-111). -/
def bankSystemDesign : List QBankEntry :=
  [{ question := "How would you design a URL shortening service like bit.ly?",
     difficulty := "advanced",
     tags := ["distributed systems", "scalability"],
     follow_up_questions := some
       ["How would you handle URL collisions?",
        "How would you scale this to handle millions of requests per second?",
        "How would you track click analytics?"] },
   { question := "Design a distributed key-value store.",
     difficulty := "advanced",
     tags := ["distributed systems", "storage"] }]

/-- Default question bank, `algorithms` section (lines 112-123). -/
def bankAlgorithms : List QBankEntry :=
  [{ question := "Implement an LRU cache.",
     difficulty := "medium",
     tags := ["data structures", "caching"] },
   { question := "Find the kth largest element in an unsorted array.",
     difficulty := "medium",
     tags := ["arrays", "sorting", "searching"] }]

/-- Default question bank, `behavioral` section (lines 124-135). -/
def bankBehavioral : List QBankEntry :=
  [{ question := "Tell me about a time you faced a difficult technical challenge and how you overcame it.",
     difficulty := "all",
     tags := ["experience", "problem-solving"] },
   { question := "Describe a situation where you had to work with a difficult team member.",
     difficulty := "all",
     tags := ["teamwork", "communication"] }]

/-- Technology vocabulary of `extract_technologies` (interview_prep.py
lines 144-165), in source order; the Python sets are iterated to build
lists, so only membership is significant. -/
def tech_categories : List (String × List String) :=
  [("programming_languages",
    ["python", "java", "javascript", "typescript", "c++", "c#", "go", "rust",
     "swift", "kotlin", "ruby", "php", "r", "matlab", "scala", "perl"]),
   ("frameworks",
    ["react", "angular", "vue", "django", "flask", "spring", "express", "laravel",
     "ruby on rails", "tensorflow", "pytorch", "scikit-learn", "hadoop", "spark"]),
   ("databases",
    ["mysql", "postgresql", "mongodb", "redis", "cassandra", "oracle",
     "microsoft sql server", "dynamodb", "firebase", "elasticsearch"]),
   ("cloud_platforms",
    ["aws", "amazon web services", "azure", "google cloud", "gcp",
     "docker", "kubernetes", "terraform", "ansible"]),
   ("data_science",
    ["machine learning", "deep learning", "data analysis", "data visualization",
     "natural language processing", "nlp", "computer vision", "reinforcement learning"])]

/-- Embedding of `extract_technologies` (interview_prep.py lines
138-177): per category, the vocabulary terms found by word-boundary
search in the lowercased text; categories with no match are omitted. -/
def extract_technologies (resume_text : String) : List (String × List String) :=
  if resume_text = "" then []
  else
    let text_lower := lowerL resume_text.data
    (tech_categories.map (fun p => (p.1, p.2.filter (fun t => wbSearch t.data text_lower)))).filter
      (fun p => p.2 ≠ [])

/-- Python `str.capitalize`. -/
def pyCapitalize (s : String) : String :=
  match s.data with
  | [] => ""
  | c :: t => String.mk (c.toUpper :: lowerL t)

/-- Python `str.title` restricted to what the bank keys need: uppercase a
letter that follows a word start. -/
def pyTitleAux (prevAlpha : Bool) : List Char → List Char
  | [] => []
  | c :: t =>
    (if prevAlpha then c.toLower else c.toUpper) :: pyTitleAux c.isAlpha t

def pyTitle (s : String) : String :=
  String.mk (pyTitleAux false s.data)

/-- Python `str.replace(a, b)` for single characters. -/
def replaceChar (a b : Char) (s : String) : String :=
  String.mk (s.data.map (fun c => if c = a then b else c))

/-- Question records built for one detected programming language
(interview_prep.py lines 212-224). -/
def langQuestions (lang : String) : List InterviewQuestion :=
  match (bankLanguages.filter (fun p => p.1 = lang)).head? with
  | none => []
  | some (_, qs) =>
    qs.map fun q =>
      { question := q.question
        category := pyCapitalize lang ++ " Programming"
        difficulty := q.difficulty
        tags := q.tags
        answer_guidance := q.answer_guidance
        follow_up_questions := q.follow_up_questions }

/-- Data-science question records (interview_prep.py lines 228-238); the
comprehension drops `follow_up_questions`. -/
def dataScienceQuestions : List InterviewQuestion :=
  bankDataScience.foldl (fun acc p =>
    acc ++ p.2.map (fun q =>
      { question := q.question
        category := "Data Science - " ++ pyTitle (replaceChar '_' ' ' p.1)
        difficulty := q.difficulty
        tags := q.tags
        answer_guidance := q.answer_guidance
        follow_up_questions := none })) []

/-- System-design question records (lines 246-255); the comprehension
drops `answer_guidance`. -/
def systemDesignQuestions : List InterviewQuestion :=
  bankSystemDesign.map fun q =>
    { question := q.question
      category := "System Design"
      difficulty := q.difficulty
      tags := q.tags
      answer_guidance := none
      follow_up_questions := q.follow_up_questions }

/-- Algorithm question records (lines 258-266). -/
def algorithmQuestions : List InterviewQuestion :=
  bankAlgorithms.map fun q =>
    { question := q.question
      category := "Algorithms"
      difficulty := q.difficulty
      tags := q.tags
      answer_guidance := none
      follow_up_questions := none }

/-- Behavioral question records (lines 269-277). -/
def behavioralQuestions : List InterviewQuestion :=
  bankBehavioral.map fun q =>
    { question := q.question
      category := "Behavioral"
      difficulty := q.difficulty
      tags := q.tags
      answer_guidance := none
      follow_up_questions := none }

/-- Seniority keywords of interview_prep.py line 242, checked by
substring containment in the lowercased text. -/
def seniorKeywords : List String :=
  ["senior", "lead", "principal", "architect", "manager", "director", "head of"]

/-- Lazy `.*?experience` tail (no DOTALL: stops at a newline). -/
def lazyUntilExperience (low : List Char) : Bool :=
  if "experience".data.isPrefixOf low then true
  else
    match low with
    | '\n' :: _ => false
    | [] => false
    | _ :: t => lazyUntilExperience t

/-- Attempted match of `(\d+\+?\s*(years?|yrs?)\.?\s+.*?experience)`
(interview_prep.py line 241, IGNORECASE) at one position, returning the
leading digits of group 1. -/
def expYearsMatchAt (low : List Char) : Option Nat :=
  let ds := low.takeWhile pyIsDigit
  if ds.isEmpty then none
  else
    let r0 := low.dropWhile pyIsDigit
    let r1 := match r0 with
              | '+' :: t => t
              | _ => r0
    let r2 := r1.dropWhile pyIsSpace
    let afterYearWord : Option (List Char) :=
      if "years".data.isPrefixOf r2 then some (r2.drop 5)
      else if "year".data.isPrefixOf r2 then some (r2.drop 4)
      else if "yrs".data.isPrefixOf r2 then some (r2.drop 3)
      else if "yr".data.isPrefixOf r2 then some (r2.drop 2)
      else none
    match afterYearWord with
    | none => none
    | some r3 =>
      let r4 := match r3 with
                | '.' :: t => t
                | _ => r3
      match r4 with
      | c :: _ =>
        if pyIsSpace c ∧ lazyUntilExperience (r4.dropWhile pyIsSpace) then
          some (natOfDigits ds)
        else none
      | [] => none

/-- Leftmost search for the years-of-experience pattern of
`generate_questions`. -/
def expYearsSearch (low : List Char) : Option Nat :=
  match expYearsMatchAt low with
  | some n => some n
  | none =>
    match low with
    | [] => none
    | _ :: t => expYearsSearch t

/-- Python slice `l[:n]` for an arbitrary integer bound. -/
def pySliceTo (n : Int) (l : List α) : List α :=
  if 0 ≤ n then l.take n.toNat
  else l.take ((l.length : Int) + n).toNat

/-- Embedding of `generate_questions` (interview_prep.py lines 179-296).
The data-science check of line 227 evaluates
`any("data" in cat.lower() for cat in technologies.values())` whenever
`"data_science"` is not a key; the dictionary values are lists of
strings, so the first value raises an AttributeError, which no handler
catches.  `random.shuffle` is passed in as the `shuffle` argument. -/
def generate_questions (shuffle : List InterviewQuestion → List InterviewQuestion)
    (resume_text : String) (num_questions : Int) (difficulty : String)
    (categories : Option (List String)) : Except String (List InterviewQuestion) := do
  if resume_text = "" then return []
  let technologies := extract_technologies resume_text
  let langs := ((technologies.filter (fun p => p.1 = "programming_languages")).map Prod.snd).flatten
  let q1 := langs.foldl (fun acc lang => acc ++ langQuestions lang) []
  let q2 ←
    if (technologies.map Prod.fst).contains "data_science" then
      pure (q1 ++ dataScienceQuestions)
    else if technologies = [] then
      pure q1
    else
      throw "AttributeError: list object has no attribute lower"
  let low := lowerL resume_text.data
  let has_senior_role := seniorKeywords.any (fun k => substrOccurs k.data low)
  let experience_match := expYearsSearch low
  let q3 :=
    if has_senior_role || (match experience_match with
                           | some y => decide (3 ≤ y)
                           | none => false) then
      q2 ++ systemDesignQuestions
    else q2
  let q4 := q3 ++ algorithmQuestions ++ behavioralQuestions
  let q5 :=
    if lowerS difficulty ≠ "all" then
      q4.filter (fun q => lowerS q.difficulty = lowerS difficulty ∨ lowerS q.difficulty = "all")
    else q4
  let q6 :=
    match categories with
    | some (c :: cs) =>
      let categories_lower := (c :: cs).map lowerS
      q5.filter (fun q =>
        categories_lower.any (fun cat => substrS cat (lowerS q.category)) ∨
          q.tags.any (categories_lower.contains ·))
    | _ => q5
  return pySliceTo num_questions (shuffle q6)

end Cavro.Interview

namespace Cavro.Ats

open Cavro Cavro.Analyzer Cavro.Parser

/-!
Embedding of `cavro/modules/ats_score.py`: the `ATSScorer` class methods
and the module-level `calculate_ats_score`.  Sub-scores are rationals;
raised exceptions travel in `Except String`.  The per-category `details`
dictionaries are carried as (score, max score, feedback string); the
remaining detail entries are presentation metadata never read by the
scorer itself.
-/

/-- Leftmost scan driver for `re.search`: the matcher reports a payload
for a match attempted at the current position, and receives the previous
character for word-boundary tests. -/
def scanFirst (m : Option Char → List Char → Option α) (prev : Option Char)
    (l : List Char) : Option α :=
  match m prev l with
  | some a => some a
  | none =>
    match l with
    | [] => none
    | c :: t => scanFirst m (some c) t

/-- Nonoverlapping `re.findall` driver: each match reports its length and
a payload; scanning resumes after the match.  The fuel argument,
instantiated with the text length, makes the recursion structural. -/
def scanAllF (m : Option Char → List Char → Option (Nat × α)) :
    Nat → Option Char → List Char → List α
  | 0, _, _ => []
  | fuel + 1, prev, l =>
    match l with
    | [] => []
    | c :: t =>
      match m prev (c :: t) with
      | some (n, a) =>
        if n = 0 then a :: scanAllF m fuel (some c) t
        else a :: scanAllF m fuel
          (some ((c :: t).getD (n - 1) c)) (t.drop (n - 1))
      | none => scanAllF m fuel (some c) t

def scanAll (m : Option Char → List Char → Option (Nat × α)) (prev : Option Char)
    (l : List Char) : List α :=
  scanAllF m l.length prev l

/-- Category keyword table of `ATSScorer.common_keywords` (ats_score.py
lines 49-55); 45 keywords over five categories. -/
def common_keywords : List (String × List String) :=
  [("languages", ["python", "java", "javascript", "c++", "c#", "swift", "kotlin",
     "go", "rust", "typescript"]),
   ("frameworks", ["django", "flask", "react", "angular", "vue", "node.js", ".net",
     "spring", "tensorflow", "pytorch"]),
   ("databases", ["sql", "mysql", "postgresql", "mongodb", "redis", "oracle",
     "dynamodb", "cassandra"]),
   ("cloud", ["aws", "azure", "gcp", "docker", "kubernetes", "terraform", "ansible",
     "jenkins"]),
   ("methodologies", ["agile", "scrum", "devops", "ci/cd", "tdd", "bdd",
     "microservices", "rest", "graphql"])]

/-- Action-verb list of `ATSScorer.action_verbs` (ats_score.py lines
57-64). -/
def action_verbs : List String :=
  ["achieved", "administered", "analyzed", "architected", "built", "collaborated",
   "created", "delivered", "designed", "developed", "engineered", "enhanced",
   "established", "expanded", "implemented", "improved", "increased", "initiated",
   "innovated", "integrated", "introduced", "launched", "led", "managed",
   "optimized", "orchestrated", "performed", "pioneered", "produced", "programmed",
   "reduced", "refactored", "resolved", "scaled", "spearheaded", "streamlined",
   "transformed"]

/-- Section headers of `ATSScorer.section_headers` (ats_score.py lines
81-84). -/
def section_headers : List String :=
  ["experience", "work history", "employment", "education", "skills", "projects",
   "certifications", "awards", "publications", "languages", "interests"]

/-- Per-category output carried in the `details` mapping. -/
structure CatOut where
  score : ℚ
  maxScore : ℚ
  feedback : String
deriving Repr, DecidableEq

/-- Embedding of `_score_keywords` (ats_score.py lines 143-166). -/
def score_keywords (text : String) : CatOut :=
  let low := lowerL text.data
  let found := common_keywords.map (fun p => (p.1, p.2.filter (fun k => wbSearch k.data low)))
  let found_count : Nat := (found.map (fun p => p.2.length)).sum
  let score : ℚ := (found_count : ℚ) / 45 * 100
  let missing := (found.filter (fun p => p.2 = [])).map Prod.fst
  { score := score
    maxScore := 100
    feedback :=
      if missing = [] then "Good keyword coverage across multiple categories."
      else "Consider adding keywords related to: " ++ String.intercalate ", " missing ++ "." }

/-- Prefix search for `\b<verb>\w*\b`: the verb with a leading word
boundary; the trailing `\w*\b` always succeeds by taking the maximal
word run. -/
def verbPrefixAt (verb : List Char) (prev : Option Char) (rest : List Char) : Bool :=
  verb.isPrefixOf rest && !sideIsWord prev

def verbSearchAux (verb : List Char) (prev : Option Char) (rest : List Char) : Bool :=
  verbPrefixAt verb prev rest ||
    match rest with
    | [] => false
    | c :: t => verbSearchAux verb (some c) t

/-- Embedding of `_score_action_verbs` (ats_score.py lines 168-191):
`min(count * (100/15), 100)` over the count of distinct verbs found. -/
def score_action_verbs (text : String) : CatOut :=
  let low := lowerL text.data
  let found := action_verbs.filter (fun v => verbSearchAux v.data none low)
  let verb_count := found.length
  { score := pyMin ((verb_count : ℚ) * (100 / 15)) 100
    maxScore := 100
    feedback :=
      if verb_count < 5 then
        "Use more action verbs to start your bullet points (e.g., \x27Developed\x27, \x27Led\x27, \x27Implemented\x27)."
      else "Good use of action-oriented language." }

/-- Matcher for the phone pattern `\b\d{3}[-.]?\d{3}[-.]?\d{4}\b`
(ats_score.py line 68): optional separators tried greedily. -/
def phoneM (prev : Option Char) (s : List Char) : Option Nat :=
  match s.head? with
  | none => none
  | some c0 =>
    if wordBoundary prev (some c0) then
      let sepOpt : List Char → List Nat := fun r =>
        match r.head? with
        | some '-' => [1, 0]
        | some '.' => [1, 0]
        | _ => [0]
      if 3 ≤ digitRun s then
        let r1 := s.drop 3
        firstSome (sepOpt r1) (fun k1 =>
          let r2 := r1.drop k1
          if 3 ≤ digitRun r2 then
            let r3 := r2.drop 3
            firstSome (sepOpt r3) (fun k2 =>
              let r4 := r3.drop k2
              if 4 ≤ digitRun r4 ∧ !sideIsWord ((r4.drop 4).head?) then
                some (3 + k1 + 3 + k2 + 4)
              else none)
          else none)
      else none
    else none

/-- Matcher for the profile-link patterns
`\b(https?://)?(www\.)?<site>\.com/[\w-]+\b` (ats_score.py lines 69-70),
IGNORECASE, with the optional prefixes tried in greedy order and the
`[\w-]+` run backtracking against the trailing boundary. -/
def profileM (site : List Char) (prev : Option Char) (s : List Char) : Option Nat :=
  match s.head? with
  | none => none
  | some c0 =>
    if wordBoundary prev (some c0) then
      let low := lowerL s
      let prefixes : List Nat :=
        (if "https://".data.isPrefixOf low then [8] else []) ++
        (if "http://".data.isPrefixOf low then [7] else []) ++ [0]
      firstSome prefixes (fun pLen =>
        let r1 := low.drop pLen
        let wwws : List Nat := (if "www.".data.isPrefixOf r1 then [4] else []) ++ [0]
        firstSome wwws (fun wLen =>
          let r2 := r1.drop (wLen)
          let lit := site ++ ".com/".data
          if lit.isPrefixOf r2 then
            let r3 := r2.drop lit.length
            let runMax := (r3.takeWhile (fun c => pyIsWord c || c = '-')).length
            firstSome (((List.range (runMax + 1)).reverse).filter (1 ≤ ·)) (fun k =>
              if wordBoundary (some (r3.getD (k - 1) ' ')) ((r3.drop k).head?) then
                some (pLen + wLen + lit.length + k)
              else none)
          else none))
    else none

/-- Embedding of `_score_contact_info` (ats_score.py lines 193-221): the
fraction of the four contact patterns present, scaled to 100. -/
def score_contact_info (text : String) : CatOut :=
  let l := text.data
  let emailFound := (scanFirst (fun p s => emailM p s) none l).isSome
  let phoneFound := (scanFirst (fun p s => phoneM p s) none l).isSome
  let linkedinFound := (scanFirst (fun p s => profileM "linkedin".data p s) none l).isSome
  let githubFound := (scanFirst (fun p s => profileM "github".data p s) none l).isSome
  let found : List (Bool × String) :=
    [(emailFound, "email"), (phoneFound, "phone"), (linkedinFound, "linkedin"),
     (githubFound, "github")]
  let cnt := (found.filter Prod.fst).length
  let missing := (found.filter (fun p => !p.1)).map Prod.snd
  { score := (cnt : ℚ) / 4 * 100
    maxScore := 100
    feedback :=
      if missing = [] then "All essential contact information is present."
      else "Missing: " ++ String.intercalate ", " missing ++ ". " ++
        "Ensure your contact info is complete and professional." }

end Cavro.Ats

namespace Cavro.Ats

open Cavro Cavro.Analyzer Cavro.Parser

/-- Bullet-point record of `_extract_work_experience` (ats_score.py
lines 280-284). -/
structure AtsBullet where
  text : String
  has_metrics : Bool
  action_verb : Option String
deriving Repr, DecidableEq

/-- Per-position record of `_extract_work_experience` (ats_score.py
lines 254-262). -/
structure AtsExp where
  dates : String
  start_date : Option String
  end_date : Option String
  title : Option String
  company : Option String
  bullet_points : List AtsBullet
deriving Repr, DecidableEq

/-- Attempted match of the date pattern of `_extract_work_experience`
(ats_score.py line 226) at one position of the lowercased line:
`(?i)(?:(?P<start_month>Jan|...)[a-z]*\s*(?P<start_year>\d{4})\s*[–-]\s*`
`(?P<end_month>Present|(?:Jan|...)[a-z]*\s*\d{4})?)`.
Returns (whole length, month length offset data): the start month is the
three-character alternation group, the year requires four digits, the
dash is mandatory, and the optional end group tries the literal
`Present` before a month-year form. -/
def atsDateAt (low : List Char) : Option (Nat × Nat × Nat × Option (Nat × Nat)) :=
  if monthAt low then
    let a := letterRun (low.drop 3)
    let s1 := spaceRun (low.drop (3 + a))
    let yPos := 3 + a + s1
    if 4 ≤ digitRun (low.drop yPos) then
      let s2 := spaceRun (low.drop (yPos + 4))
      match (low.drop (yPos + 4 + s2)).head? with
      | some c =>
        if c = '-' ∨ c = '–' then
          let dashEnd := yPos + 4 + s2 + 1
          let s3 := spaceRun (low.drop dashEnd)
          let endPos := dashEnd + s3
          let rest := low.drop endPos
          let endLen : Option Nat :=
            if "present".data.isPrefixOf rest then some 7
            else if monthAt rest then
              let a2 := letterRun (rest.drop 3)
              let s4 := spaceRun (rest.drop (3 + a2))
              if 4 ≤ digitRun (rest.drop (3 + a2 + s4)) then
                some (3 + a2 + s4 + 4)
              else none
            else none
          match endLen with
          | some e => some (endPos + e, yPos, endPos, some (endPos, e))
          | none => some (endPos, yPos, endPos, none)
        else none
      | none => none
    else none
  else none

/-- Leftmost search for the ats date pattern, returning
(position, whole length, year offset, end-group offset and length). -/
def atsDateSearch (low : List Char) (pos : Nat) :
    Option (Nat × Nat × Nat × Option (Nat × Nat)) :=
  match atsDateAt low with
  | some (whole, yPos, _, endInfo) => some (pos, whole, yPos, endInfo)
  | none =>
    match low with
    | [] => none
    | _ :: t => atsDateSearch t (pos + 1)

/-- Seniority prefixes of the job-title pattern (ats_score.py line 229),
in alternation order. -/
def jobLevels : List String :=
  ["senior", "junior", "lead", "staff", "principal", "associate", "director",
   "vp", "cto", "ceo", "founder"]

/-- Role alternatives of the job-title pattern (ats_score.py lines
230-234), each a sequence of words separated by `\s+`, in alternation
order. -/
def jobRoles : List (List String) :=
  [["software", "engineer"], ["developer"], ["data", "scientist"],
   ["ml", "engineer"], ["ai", "engineer"], ["product", "manager"],
   ["project", "manager"], ["engineering", "manager"], ["devops", "engineer"],
   ["qa", "engineer"], ["test", "engineer"], ["ui/ux", "designer"],
   ["full", "stack"], ["back", "end"], ["front", "end"], ["cloud", "architect"],
   ["solutions", "architect"], ["data", "engineer"], ["database", "admin"],
   ["security", "engineer"], ["network", "engineer"],
   ["systems", "administrator"]]

/-- Match of one word sequence joined by `\s+`, returning the consumed
length. -/
def wordSeqAt (ws : List String) (low : List Char) : Option Nat :=
  match ws with
  | [] => some 0
  | [w] => if w.data.isPrefixOf low then some w.data.length else none
  | w :: rest =>
    if w.data.isPrefixOf low then
      let r := low.drop w.data.length
      let k := spaceRun r
      if 1 ≤ k then (wordSeqAt rest (r.drop k)).map (w.data.length + k + ·)
      else none
    else none

/-- Matcher for the job-title pattern
`\b(?:(?:Senior|...)\s+)?(?:Software\s+Engineer|...)\b` (ats_score.py
line 236, IGNORECASE): the optional level prefix is tried first, and the
role alternation carries the trailing word boundary. -/
def jobTitleM (prev : Option Char) (s : List Char) : Option Nat :=
  if sideIsWord prev then none
  else
    let low := lowerL s
    let roleAt : List Char → Option Nat := fun r =>
      firstSome jobRoles (fun ws =>
        match wordSeqAt ws r with
        | some n => if trailB r n then some n else none
        | none => none)
    let withLevel : Option Nat :=
      firstSome jobLevels (fun lv =>
        if lv.data.isPrefixOf low then
          let r := low.drop lv.data.length
          let k := spaceRun r
          if 1 ≤ k then (roleAt (r.drop k)).map (lv.data.length + k + ·)
          else none
        else none)
    match withLevel with
    | some n => some n
    | none => roleAt low

/-- Company-name class `[A-Za-z0-9&.\-\s]`, with `(?i)` making the
leading `[A-Z]` any letter. -/
def companyChar (c : Char) : Bool :=
  c.isAlphanum || c = '&' || c = '.' || c = '-' || pyIsSpace c

/-- Lookahead `\s*(?:Jan|...|Dec|\d|\n|$)` of the company pattern
(ats_score.py line 239): a newline inside the whitespace run, or after
the run a month word, a digit, or the end of the line. -/
def lookCompanyEnd (low : List Char) : Bool :=
  ((low.takeWhile pyIsSpace).contains '\n') ||
    (let r := low.drop (spaceRun low)
     monthAt r || (match r.head? with
                   | some c => pyIsDigit c
                   | none => true))

/-- Lazy group run of the company pattern: smallest extension (at least
one class character after the leading letter) satisfying the lookahead. -/
def companyLazy (low : List Char) (consumed : Nat) : Option Nat :=
  match low with
  | [] => none
  | c :: t =>
    if companyChar c then
      if 1 ≤ consumed + 1 ∧ lookCompanyEnd t then some (consumed + 1)
      else companyLazy t (consumed + 1)
    else none

/-- Matcher for the company pattern
`(?i)(?:(?:at|@|\bat\b)\s*)([A-Z][A-Za-z0-9&.\-\s]+?)(?=\s*(...))`
(ats_score.py line 239).  The first alternative `at` carries no word
boundary, so the third alternative `\bat\b` is unreachable.  Returns the
group-1 offset and length. -/
def companyM (_ : Option Char) (s : List Char) : Option (Nat × Nat) :=
  let low := lowerL s
  let pre : Option Nat :=
    if "at".data.isPrefixOf low then some 2
    else if "@".data.isPrefixOf low then some 1
    else none
  match pre with
  | none => none
  | some p =>
    let sp := spaceRun (low.drop p)
    let gPos := p + sp
    match (low.drop gPos).head? with
    | some c =>
      if c.isAlpha then
        (companyLazy (low.drop (gPos + 1)) 0).map (fun inner => (gPos, 1 + inner))
      else none
    | none => none

/-- Leftmost search for the company pattern: (group-1 position, length). -/
def companySearch (low : List Char) (pos : Nat) : Option (Nat × Nat) :=
  match companyM none low with
  | some (off, len) => some (pos + off, len)
  | none =>
    match low with
    | [] => none
    | _ :: t => companySearch t (pos + 1)

/-- Metric verbs of the bullet metrics pattern (ats_score.py line 279). -/
def metricVerbs : List String :=
  ["increased", "reduced", "saved", "improved", "grew", "optimized", "decreased",
   "boosted", "achieved", "delivered"]

/-- Numeric tail `\s*\$?\d+(?:\.\d+)?[%kKmMbB]?\b` after the optional
connector, with greedy option backtracking against the final boundary. -/
def metricNumberAt (low : List Char) : Bool :=
  let sp := spaceRun low
  let r0 := low.drop sp
  let dollarBranches : List Nat :=
    (if r0.head? = some '$' then [1] else []) ++ [0]
  dollarBranches.any (fun dl =>
    let r1 := r0.drop dl
    let d := digitRun r1
    if d = 0 then false
    else
      let r2 := r1.drop d
      let decBranches : List Nat :=
        (match r2.head? with
         | some '.' =>
           let d2 := digitRun (r2.drop 1)
           if 1 ≤ d2 then [1 + d2] else []
         | _ => []) ++ [0]
      decBranches.any (fun dec =>
        let r3 := r2.drop dec
        let sufBranches : List Nat :=
          (match r3.head? with
           | some c => if c = '%' || c = 'k' || c = 'm' || c = 'b' then [1] else []
           | none => []) ++ [0]
        sufBranches.any (fun suf =>
          let last : Option Char := (low.take (sp + dl + d + dec + suf)).getLast?
          wordBoundary last ((r3.drop suf).head?))))

/-- Tail of the metrics pattern at a fixed position:
`\b(?:by|to|from)?\s*\$?\d+(?:\.\d+)?[%kKmMbB]?\b`. -/
def metricTailAt (prev : Option Char) (low : List Char) : Bool :=
  match low.head? with
  | none => false
  | some c0 =>
    if wordBoundary prev (some c0) then
      let connBranches : List Nat :=
        (if "by".data.isPrefixOf low then [2] else []) ++
        (if "to".data.isPrefixOf low then [2] else []) ++
        (if "from".data.isPrefixOf low then [4] else []) ++ [0]
      connBranches.any (fun k => metricNumberAt (low.drop k))
    else false

/-- Scan for the metrics tail anywhere at or after the current position. -/
def metricTailSearch (prev : Option Char) (low : List Char) : Bool :=
  metricTailAt prev low ||
    match low with
    | [] => false
    | c :: t => metricTailSearch (some c) t

/-- Presence of the bullet metrics pattern (ats_score.py line 279): a
metric verb with word boundaries, followed (lazily) by the numeric tail. -/
def hasMetricsAux (prev : Option Char) (low : List Char) : Bool :=
  (match firstSome metricVerbs (fun v =>
      if wbMatchesHere v.data prev low then some v.data.length else none) with
   | some n => metricTailSearch ((low.take n).getLast?) (low.drop n)
   | none => false) ||
    match low with
    | [] => false
    | c :: t => hasMetricsAux (some c) t

def hasMetrics (point : String) : Bool :=
  hasMetricsAux none (lowerL point.data)

/-- Bullet-line match `^[•\-*]\s+(.+)` (ats_score.py line 275). -/
def bulletMatch (line : List Char) : Option (List Char) :=
  match line with
  | c :: t =>
    if c = '•' || c = '-' || c = '*' then
      let k := spaceRun t
      if 1 ≤ k ∧ t.drop k ≠ [] then some (t.drop k) else none
    else none
  | [] => none

/-- Leading `^\w+` action verb of a bullet point, lowercased
(ats_score.py line 283). -/
def bulletActionVerb (point : List Char) : Option String :=
  match point.takeWhile pyIsWord with
  | [] => none
  | r => some (String.mk (lowerL r))

/-- Bullet record construction (ats_score.py lines 276-284). -/
def buildBullet (point : List Char) : AtsBullet :=
  { text := String.mk point
    has_metrics := hasMetrics (String.mk point)
    action_verb := bulletActionVerb point }

/-- Processing of one stripped line of `_extract_work_experience`
(ats_score.py lines 248-284): a date match opens a new entry (raising an
IndexError when the end group is anything but the exact text `Present`,
because the code reads the nonexistent group `end_year`); a title, a
company and bullet points attach to the open entry. -/
def processLine (st : List AtsExp × Option AtsExp) (line : String) :
    Except String (List AtsExp × Option AtsExp) := do
  let l := line.data
  let low := lowerL l
  let mut done := st.1
  let mut current := st.2
  match atsDateSearch low 0 with
  | some (pos, whole, yPos, endInfo) =>
    match current with
    | some e => done := done ++ [e]
    | none => pure ()
    let startMonth := (l.drop pos).take 3
    let startYear := ((l.drop (pos + yPos)).take 4)
    let endDate : Option String ←
      match endInfo with
      | none => pure none
      | some (ePos, eLen) =>
        let endText := String.mk ((l.drop (pos + ePos)).take eLen)
        if endText = "Present" then pure (some "Present")
        else throw "IndexError: no such group"
    current := some
      { dates := String.mk ((l.drop pos).take whole)
        start_date := some (String.mk startMonth ++ " " ++ String.mk startYear)
        end_date := endDate
        title := none
        company := none
        bullet_points := [] }
  | none => pure ()
  match scanFirst (fun p s => (jobTitleM p s).map (fun n => (s, n))) none low, current with
  | some (suffix, n), some e =>
    if e.title = none then
      let pos := low.length - suffix.length
      current := some { e with title := some (String.mk ((l.drop pos).take n)) }
  | _, _ => pure ()
  match companySearch low 0, current with
  | some (gPos, gLen), some e =>
    if e.company = none then
      current := some { e with company := some (String.mk (pyStrip ((l.drop gPos).take gLen))) }
  | _, _ => pure ()
  match bulletMatch l, current with
  | some rawPoint, some e =>
    let point := pyStrip rawPoint
    current := some { e with bullet_points := e.bullet_points ++ [buildBullet point] }
  | _, _ => pure ()
  return (done, current)

/-- Embedding of `_extract_work_experience` (ats_score.py lines
223-289). -/
def extract_work_experience (text : String) : Except String (List AtsExp) := do
  let lines := ((splitNl text.data).map pyStrip).filter (· ≠ [])
  let st ← lines.foldlM (fun st line => processLine st (String.mk line)) ([], none)
  match st.2 with
  | some e => return st.1 ++ [e]
  | none => return st.1

end Cavro.Ats

namespace Cavro.Ats

open Cavro Cavro.Analyzer Cavro.Parser

/-- Degree alternatives of `_score_education` (ats_score.py lines 74-78)
after `re.escape`: the dotted raw strings keep their backslashes, so
those alternatives match text containing literal backslash characters. -/
def degree_types : List String :=
  ["bs", "b\\.s\\.", "bachelor", "ba", "b\\.a\\.", "ms", "m\\.s\\.", "master",
   "phd", "ph\\.d\\.", "mba", "b\\.tech", "btech", "m\\.tech", "mtech",
   "b\\.e\\.", "b\\.eng", "m\\.e\\.", "m\\.eng", "bca", "mca"]

/-- Matcher for the degree alternation (no word boundaries, IGNORECASE). -/
def degreeM (_ : Option Char) (s : List Char) : Option (Nat × Unit) :=
  let low := lowerL s
  (firstSome degree_types (fun d =>
    if d.data.isPrefixOf low then some d.data.length else none)).map (·, ())

/-- Matcher for the institution alternation
`\b(?:University|College|Institute|School|Univ\.?|Inst\.?|Tech|Polytechnic)\b`
(ats_score.py line 449, IGNORECASE); the optional dots are greedy and
give way to the trailing boundary. -/
def institutionM (prev : Option Char) (s : List Char) : Option (Nat × Unit) :=
  if sideIsWord prev then none
  else
    let low := lowerL s
    let dotAlt : String → Option Nat := fun w =>
      if (w ++ ".").data.isPrefixOf low then
        -- with the dot the trailing boundary needs a word character next
        if sideIsWord ((low.drop (w.length + 1)).head?) then some (w.length + 1)
        else if !sideIsWord ((low.drop w.length).head?) then some w.length
        else none
      else if w.data.isPrefixOf low then
        if !sideIsWord ((low.drop w.length).head?) then some w.length else none
      else none
    (firstSome [litWB "university".data low, litWB "college".data low,
      litWB "institute".data low, litWB "school".data low,
      dotAlt "univ", dotAlt "inst", litWB "tech".data low,
      litWB "polytechnic".data low] id).map (·, ())

/-- Matcher for the graduation-year pattern `\b(?:19|20)\d{2}\b`
(ats_score.py line 450). -/
def yearM (prev : Option Char) (s : List Char) : Option (Nat × Unit) :=
  match s.head? with
  | none => none
  | some c0 =>
    if wordBoundary prev (some c0) then
      if ("19".data.isPrefixOf s || "20".data.isPrefixOf s) ∧ 4 ≤ digitRun s ∧
          !sideIsWord ((s.drop 4).head?) then
        some (4, ())
      else none
    else none

/-- Embedding of `_score_education` (ats_score.py lines 445-490). -/
def score_education (text : String) : CatOut :=
  let l := text.data
  let degrees := (scanAll degreeM none l).length
  let institutions := (scanAll institutionM none l).length
  let years := (scanAll yearM none l).length
  if degrees = 0 ∧ institutions = 0 then
    { score := 0, maxScore := 100,
      feedback := "Education section not found or not clearly formatted." }
  else
    let score : ℚ :=
      (if 0 < degrees then (40 : ℚ) + (if 1 < degrees then 20 else 0) else 0) +
      (if 0 < institutions then (20 : ℚ) + (if 1 < institutions then 10 else 0) else 0) +
      (if 0 < years then (10 : ℚ) else 0)
    let fb : List String :=
      (if degrees = 0 then ["List your degree(s) (e.g., \x27BS in Computer Science\x27)."] else []) ++
      (if institutions = 0 then ["Include the name of your educational institution(s)."] else []) ++
      (if years = 0 then ["Add graduation year(s) or expected graduation date."] else [])
    { score := pyMin score 100, maxScore := 100,
      feedback :=
        if fb = [] then "Education section is complete with degree, institution, and dates."
        else String.intercalate " " fb }

/-- Header alternation of the skills-section pattern (ats_score.py line
496): `skills|technical\s+skills|technical\s+expertise|technologies`, no
word boundaries. -/
def skillsHeaderAt (low : List Char) : Option Nat :=
  if "skills".data.isPrefixOf low then some 6
  else
    let viaTech : Option Nat :=
      if "technical".data.isPrefixOf low then
        let r := low.drop 9
        let k := spaceRun r
        if 1 ≤ k then
          if "skills".data.isPrefixOf (r.drop k) then some (9 + k + 6)
          else if "expertise".data.isPrefixOf (r.drop k) then some (9 + k + 9)
          else none
        else none
      else none
    match viaTech with
    | some n => some n
    | none => if "technologies".data.isPrefixOf low then some 12 else none

/-- Lookahead `\n\w|$` closing the lazy skills group. -/
def lookSkillEnd (r : List Char) : Bool :=
  (match r with
   | '\n' :: c :: _ => pyIsWord c
   | _ => false) || r = [] || r = ['\n']

/-- Lazy `(.+?)` (DOTALL) length, at least one character, up to the
skills lookahead. -/
def lazySkillLen (l : List Char) : Option Nat :=
  match l with
  | [] => none
  | _ :: t => if lookSkillEnd t then some 1 else (lazySkillLen t).map (· + 1)

/-- Attempted match of the skills-section pattern at one position,
returning the group-1 offset and length; the greedy `[:;\s]*` run gives
one character back when nothing would remain for the group. -/
def skillsSectionAt (low : List Char) : Option (Nat × Nat) :=
  match skillsHeaderAt low with
  | none => none
  | some h =>
    let rest := low.drop h
    let k := (rest.takeWhile (fun c => c = ':' || c = ';' || pyIsSpace c)).length
    let tryFrom : Nat → Option (Nat × Nat) := fun off =>
      (lazySkillLen (rest.drop off)).map (fun g => (h + off, g))
    if (rest.drop k) ≠ [] then tryFrom k
    else if 1 ≤ k then tryFrom (k - 1)
    else none

/-- Leftmost search for the skills section: (group-1 position, length)
in the whole text. -/
def skillsSectionSearch (low : List Char) (pos : Nat) : Option (Nat × Nat) :=
  match skillsSectionAt low with
  | some (off, g) => some (pos + off, g)
  | none =>
    match low with
    | [] => none
    | _ :: t => skillsSectionSearch t (pos + 1)

/-- Python `re.split(r"[,\n\|•]", s)`. -/
def splitSkillSeps (l : List Char) : List (List Char) :=
  match l with
  | [] => [[]]
  | c :: t =>
    if c = ',' || c = '\n' || c = '|' || c = '•' then [] :: splitSkillSeps t
    else
      match splitSkillSeps t with
      | [] => [[c]]
      | w :: ws => (c :: w) :: ws

/-- Embedding of `_score_skills` (ats_score.py lines 492-557). -/
def score_skills (text : String) : CatOut :=
  let low := lowerL text.data
  match skillsSectionSearch low 0 with
  | some (gPos, gLen) =>
    let skills_text := (text.data.drop gPos).take gLen
    let skills := ((splitSkillSeps skills_text).map pyStrip).filter (· ≠ [])
    let n := skills.length
    let scoreFb : ℚ × String :=
      if n = 0 then (0, "No skills listed in the skills section.")
      else if n < 5 then
        ((30 : ℚ) + n * 5,
         "Only " ++ toString n ++ " skills listed. Aim for 10-15 relevant skills.")
      else if 20 < n then (80, "Consider focusing on the most relevant 10-15 skills.")
      else ((40 : ℚ) + pyMin ((n : ℚ) * 4) 60, "Good number of skills listed.")
    let categoriesExist := (splitNl skills_text).any (fun line => line.contains ':')
    { score := scoreFb.1, maxScore := 100,
      feedback :=
        if ¬ categoriesExist ∧ 5 < n then
          scoreFb.2 ++ " Consider grouping skills by category (e.g., \x27Languages: Python, Java\x27)."
        else scoreFb.2 }
  | none =>
    let anySkill := common_keywords.any (fun p => p.2.any (fun k => wbSearch k.data low))
    if anySkill then
      { score := 50, maxScore := 100,
        feedback := "Skills are mentioned but not in a dedicated section. Add a \x27Skills\x27 section for better visibility." }
    else
      { score := 20, maxScore := 100,
        feedback := "No skills section found. Add a \x27Skills\x27 section listing your technical and soft skills." }

/-- Verbs of achievement pattern 1 (ats_score.py line 563). -/
def achVerbs : List String :=
  ["increased", "reduced", "saved", "grew", "improved", "decreased", "optimized",
   "boosted", "expanded", "delivered"]

/-- Captured-number alternatives `(\d+%?|\$\d+[KkMm]?|\d+[KkMm]?\$?)\b` of
achievement pattern 1, in alternation order with greedy option
backtracking against the trailing boundary; returns the number length. -/
def achNumberAt (low : List Char) : Option Nat :=
  let bAfter : Nat → Bool := fun n =>
    wordBoundary ((low.take n).getLast?) ((low.drop n).head?)
  let d := digitRun low
  let alt1 : Option Nat :=
    if d = 0 then none
    else if (low.drop d).head? = some '%' ∧ bAfter (d + 1) then some (d + 1)
    else if bAfter d then some d
    else none
  match alt1 with
  | some n => some n
  | none =>
    let alt2 : Option Nat :=
      match low with
      | '$' :: r =>
        let d2 := digitRun r
        if d2 = 0 then none
        else
          let sufOk : Bool := match (r.drop d2).head? with
                              | some c => c = 'k' || c = 'm'
                              | none => false
          if sufOk && bAfter (1 + d2 + 1) then some (1 + d2 + 1)
          else if bAfter (1 + d2) then some (1 + d2)
          else none
      | _ => none
    match alt2 with
    | some n => some n
    | none =>
      if d = 0 then none
      else
        let kLen : Nat := match (low.drop d).head? with
                          | some c => if c = 'k' || c = 'm' then 1 else 0
                          | none => 0
        let branches : List Nat :=
          (if kLen = 1 then
            (if (low.drop (d + 1)).head? = some '$' then [d + 2] else []) ++ [d + 1]
          else []) ++
          (if (low.drop d).head? = some '$' then [d + 1] else []) ++ [d]
        firstSome branches (fun n => if bAfter n then some n else none)

/-- Tail `\b(?:by\s+)?(NUM)\b` of achievement pattern 1 at a fixed
position; returns (consumed length, captured number). -/
def achTailAt (prev : Option Char) (low : List Char) : Option (Nat × List Char) :=
  match low.head? with
  | none => none
  | some c0 =>
    if wordBoundary prev (some c0) then
      let withBy : Option (Nat × List Char) :=
        if "by".data.isPrefixOf low then
          let k := spaceRun (low.drop 2)
          if 1 ≤ k then
            (achNumberAt (low.drop (2 + k))).map
              (fun n => (2 + k + n, (low.drop (2 + k)).take n))
          else none
        else none
      match withBy with
      | some r => some r
      | none => (achNumberAt low).map (fun n => (n, low.take n))
    else none

/-- Matcher for achievement pattern 1
`\b(?:verbs)\b[^.!?]*\b(?:by\s+)?(NUM)\b` (ats_score.py line 563):
greedy `[^.!?]*` span explored longest-first; payload is the captured
number. -/
def achP1M (prev : Option Char) (s : List Char) : Option (Nat × List Char) :=
  let low := lowerL s
  match firstSome achVerbs (fun v =>
      if wbMatchesHere v.data prev low then some v.data.length else none) with
  | none => none
  | some vLen =>
    let span := ((low.drop vLen).takeWhile (fun c => c ≠ '.' && c ≠ '!' && c ≠ '?')).length
    firstSome ((List.range (span + 1)).reverse) (fun m =>
      let q := vLen + m
      (achTailAt ((low.take q).getLast?) (low.drop q)).map
        (fun r => (q + r.1, r.2)))

/-- Matcher for achievement patterns 2 and 4 (word alternations with
boundaries); payload is the matched word. -/
def achWordsM (ws : List String) (prev : Option Char) (s : List Char) :
    Option (Nat × List Char) :=
  let low := lowerL s
  firstSome ws (fun w =>
    if wbMatchesHere w.data prev low then some (w.data.length, w.data) else none)

/-- Matcher for achievement pattern 3
`\b(?:led|managed|mentored|trained|supervised)\b[^.!?]*\b(?:team|group|project)\b`
(ats_score.py line 565); payload is the whole match. -/
def achP3M (prev : Option Char) (s : List Char) : Option (Nat × List Char) :=
  let low := lowerL s
  match firstSome ["led", "managed", "mentored", "trained", "supervised"]
      (fun v => if wbMatchesHere v.data prev low then some v.data.length else none) with
  | none => none
  | some vLen =>
    let span := ((low.drop vLen).takeWhile (fun c => c ≠ '.' && c ≠ '!' && c ≠ '?')).length
    firstSome ((List.range (span + 1)).reverse) (fun m =>
      let q := vLen + m
      match firstSome ["team", "group", "project"] (fun w =>
          if wbMatchesHere w.data ((low.take q).getLast?) (low.drop q) then
            some w.data.length
          else none) with
      | some nLen => some (q + nLen, low.take (q + nLen))
      | none => none)

/-- Order-preserving dedup on lowercased text (ats_score.py lines
575-580); the embedding collects lowercased captures, so the comparison
key is the element itself. -/
def dedup (seen : List (List Char)) : List (List Char) → List (List Char)
  | [] => []
  | x :: t => if seen.contains x then dedup seen t else x :: dedup (x :: seen) t

/-- Embedding of `_score_achievements` (ats_score.py lines 559-602). -/
def score_achievements (text : String) : CatOut :=
  let l := text.data
  let found :=
    scanAll achP1M none l ++
    scanAll (achWordsM ["award", "certification", "recognition", "honor", "prize",
      "scholarship", "publication", "presentation", "patent"]) none l ++
    scanAll achP3M none l ++
    scanAll (achWordsM ["presented", "published", "speaker", "talk", "workshop",
      "conference"]) none l
  let n := (dedup [] (found.map lowerL)).length
  if n = 0 then
    { score := 20, maxScore := 100,
      feedback := "No clear achievements or impact statements found. Add quantifiable results (e.g., \x27Increased performance by 30%\x27)." }
  else if n = 1 then
    { score := 50, maxScore := 100,
      feedback := "Found 1 achievement. Add more quantifiable results to strengthen your resume." }
  else if n = 2 then
    { score := 70, maxScore := 100,
      feedback := "Good start with achievements. Include 1-2 more for greater impact." }
  else
    { score := pyMin ((90 : ℚ) + n * 2) 100, maxScore := 100,
      feedback := "Found " ++ toString n ++ " achievements. Great job highlighting your impact!" }

/-- Matcher for the bullet-style pattern `^\s*([•\-*])\s+` (MULTILINE,
ats_score.py line 635); the anchor holds at the text start or after a
newline. -/
def bulletStyleM (prev : Option Char) (s : List Char) : Option (Nat × Char) :=
  if prev = none ∨ prev = some '\n' then
    let k := spaceRun s
    match (s.drop k).head? with
    | some c =>
      if c = '•' || c = '-' || c = '*' then
        let k2 := spaceRun (s.drop (k + 1))
        if 1 ≤ k2 then some (k + 1 + k2, c) else none
      else none
    | none => none
  else none

/-- Matcher for `\n\n`. -/
def doubleNlM (_ : Option Char) (s : List Char) : Option (Nat × Unit) :=
  if "\n\n".data.isPrefixOf s then some (2, ()) else none

/-- Matcher for the all-caps pattern `^[A-Z\s]+$` (MULTILINE, ats_score.py
line 648): greedy class run backtracking to a position at the end of the
text or before a newline. -/
def allCapsM (prev : Option Char) (s : List Char) : Option (Nat × Unit) :=
  if prev = none ∨ prev = some '\n' then
    let r := (s.takeWhile (fun c => ('A' ≤ c && c ≤ 'Z') || pyIsSpace c)).length
    (firstSome (((List.range (r + 1)).reverse).filter (1 ≤ ·)) (fun k =>
      match (s.drop k).head? with
      | none => some k
      | some '\n' => some k
      | _ => none)).map (·, ())
  else none

/-- Embedding of `_score_formatting` (ats_score.py lines 604-661). -/
def score_formatting (text : String) : CatOut :=
  let l := text.data
  let low := lowerL l
  let headersFound := section_headers.filter (fun h => wbSearch h.data low)
  let missingSections :=
    if headersFound = [] then []
    else ["experience", "education", "skills"].filter (fun h => ¬ headersFound.contains h)
  let line_count := (((splitNl l).map pyStrip).filter (· ≠ [])).length
  let glyphs := dedup [] ((scanAll bulletStyleM none l).map (fun c => [c]))
  let doubles := (scanAll doubleNlM none l).length
  let singles : Int := (l.filter (· = '\n')).length - 2 * (doubles : Int)
  let allCaps := (scanAll allCapsM none l).length
  let score : ℚ :=
    50 + (if headersFound = [] then 0 else 10) -
    (if line_count < 20 then 10 else 0) -
    (if 60 < line_count then 5 else 0) -
    (if 1 < glyphs.length then 5 else 0) -
    (if (doubles : Int) * 2 < singles then 5 else 0) -
    (if 3 < allCaps then 5 else 0)
  let fb : List String :=
    (if headersFound = [] then
      ["No clear section headers found. Use clear section headings like \x27Experience\x27, \x27Education\x27, etc."]
    else if missingSections ≠ [] then
      ["Consider adding sections for: " ++ String.intercalate ", " missingSections ++ "."]
    else []) ++
    (if line_count < 20 then
      ["Resume seems too short. Consider adding more details about your experience and skills."]
    else []) ++
    (if 60 < line_count then
      ["Resume might be too long. Consider condensing to 1-2 pages."]
    else []) ++
    (if 1 < glyphs.length then
      ["Inconsistent bullet point styles. Use the same bullet style throughout."]
    else []) ++
    (if (doubles : Int) * 2 < singles then
      ["Inconsistent spacing. Ensure consistent spacing between sections and paragraphs."]
    else []) ++
    (if 3 < allCaps then
      ["Avoid using ALL CAPS for section headers. Use title case instead."]
    else [])
  { score := pyMax 0 (pyMin 100 score), maxScore := 100,
    feedback :=
      if fb = [] then "Good structure and formatting detected."
      else String.intercalate " " fb }

end Cavro.Ats

namespace Cavro.Ats

open Cavro Cavro.Analyzer Cavro.Parser

/-- Python `repr` of a string, restricted to the fixed feedback strings
of the scorer: double quotes when the text contains an apostrophe,
single quotes otherwise. -/
def pyReprStr (s : String) : String :=
  if s.data.contains (Char.ofNat 39) then "\"" ++ s ++ "\""
  else String.mk (Char.ofNat 39 :: s.data) ++ String.mk [Char.ofNat 39]

/-- Python `str` of a list of strings, as interpolated into the category
feedback line for the work-experience details. -/
def pyReprList (l : List String) : String :=
  "[" ++ String.intercalate ", " (l.map pyReprStr) ++ "]"

/-- Seniority keywords of the career-progression check (ats_score.py
line 338); the empty entry is skipped by the `if keyword` guard. -/
def seniority_keywords : List String :=
  ["junior", "associate", "", "senior", "lead", "principal", "manager",
   "director", "vp", "cto", "ceo"]

/-- Seniority level of a title (ats_score.py lines 346-351): index of the
first nonempty keyword contained in the lowercased title, default 0. -/
def seniorityLevel (title : String) : Nat :=
  let low := lowerL title.data
  ((seniority_keywords.enum.filter
      (fun p => p.2 ≠ "" ∧ substrOccurs p.2.data low)).head?).elim 0 Prod.fst

/-- Technical terms of the technical-depth count (ats_score.py line
386), in alternation order. -/
def techTerms : List String :=
  ["api", "rest", "graphql", "aws", "azure", "gcp", "docker", "kubernetes",
   "react", "angular", "vue", "python", "java", "javascript", "typescript",
   "sql", "nosql", "mongodb", "postgresql", "mysql", "machine learning", "ai",
   "ml", "data science", "ci/cd", "terraform", "ansible", "git", "agile",
   "scrum", "devops", "microservices"]

/-- Matcher for the technical-terms alternation with word boundaries. -/
def techTermM (prev : Option Char) (s : List Char) : Option (Nat × Unit) :=
  let low := lowerL s
  (firstSome techTerms (fun w =>
    if wbMatchesHere w.data prev low then some w.data.length else none)).map (·, ())

/-- Embedding of `_score_work_experience` (ats_score.py lines 291-443). -/
def score_work_experience (text : String) : Except String CatOut := do
  let wes ← extract_work_experience text
  if wes = [] then
    return { score := 0, maxScore := 100,
             feedback := "No work experience section found. Include your work history with job titles and dates." }
  let position : ℚ :=
    pyMin 20 (((wes.filter (fun e => e.title ≠ none ∧ e.company ≠ none)).length * 10 : ℕ) : ℚ)
  let progression : ℚ :=
    if 1 < wes.length then
      pyMin 20
        (((wes.foldl (fun (st : Int × Nat) e =>
            match e.title with
            | none => st
            | some t =>
              let cur := seniorityLevel t
              if st.1 < (cur : Int) then ((cur : Int), st.2 + 5) else ((cur : Int), st.2))
          (-1, 0)).2 : ℕ) : ℚ)
    else 0
  let bullets := (wes.map (fun e => e.bullet_points)).flatten
  let total_bullets := bullets.length
  let metric_bullets := (bullets.filter (fun b => b.has_metrics)).length
  let uniqueVerbs :=
    (bullets.foldl (fun (seen : List String) b =>
      match b.action_verb with
      | some v => if seen.contains v then seen else seen ++ [v]
      | none => seen) []).length
  let achRaw : ℚ := metric_bullets * 3 + uniqueVerbs
  let achWithBonus : ℚ := if 3 ≤ total_bullets then pyMin 30 (achRaw + 5) else achRaw
  let achievements : ℚ := pyMin 30 achWithBonus
  let technical_terms : ℕ :=
    (bullets.map (fun b => (scanAll techTermM none b.text.data).length)).sum
  let depth : ℚ := pyMin 20 ((technical_terms : ℚ) * 2)
  let consistent :=
    wes.all (fun e => e.title ≠ none) ∧ wes.all (fun e => e.company ≠ none)
  let withBullets := wes.all (fun e => e.bullet_points ≠ [])
  let fmt : ℚ := pyMin 10 ((if consistent then (5 : ℚ) else 0) + (if withBullets then 5 else 0))
  let total := position + progression + achievements + depth + fmt
  let fb : List String :=
    (if position < 10 then
      ["Ensure each position includes job title, company name, and dates."] else []) ++
    (if progression < 10 ∧ 1 < wes.length then
      ["Show career progression with increasing levels of responsibility."] else []) ++
    (if achievements < 15 then
      ["Include more quantified achievements with metrics (e.g., \x27increased X by Y%\x27)."] else []) ++
    (if depth < 10 then
      ["Highlight more technical skills and technologies used in each role."] else []) ++
    (if fmt < 5 then
      ["Improve formatting consistency across all work experience entries."] else [])
  return { score := total, maxScore := 100,
           feedback :=
             if fb = [] then
               pyReprList ["Work experience section is well-structured with detailed achievements."]
             else pyReprList fb }

/-- The `ScoreResult` dataclass (ats_score.py lines 21-27); the `details`
mapping is carried as category name and per-category output. -/
structure ScoreResult where
  score : ℚ
  max_score : ℚ
  details : List (String × CatOut)
  feedback : List String
deriving Repr, DecidableEq

/-- Category order, weights and display titles of `calculate_score`
(ats_score.py lines 37-46 and 105-112). -/
def categoryTable : List (String × String × ℚ) :=
  [("keywords", "Keywords", 30), ("action_verbs", "Action Verbs", 20),
   ("contact_info", "Contact Info", 10), ("work_experience", "Work Experience", 20),
   ("education", "Education", 10), ("skills", "Skills", 15),
   ("achievements", "Achievements", 15), ("formatting", "Formatting", 10)]

/-- Embedding of `ATSScorer.calculate_score` (ats_score.py lines 86-141):
per-category scores are normalized by `(score/max) * weight` and summed;
the method itself catches nothing, so the IndexError of
`_extract_work_experience` escapes it. -/
def calculate_score (text : String) : Except String ScoreResult := do
  if pyStrip text.data = [] then
    return { score := 0, max_score := 100, details := [], feedback := ["Empty resume text provided"] }
  let kw := score_keywords text
  let av := score_action_verbs text
  let ci := score_contact_info text
  let we ← score_work_experience text
  let ed := score_education text
  let sk := score_skills text
  let ach := score_achievements text
  let fm := score_formatting text
  let results : List (String × String × ℚ × CatOut) :=
    [("keywords", "Keywords", 30, kw), ("action_verbs", "Action Verbs", 20, av),
     ("contact_info", "Contact Info", 10, ci),
     ("work_experience", "Work Experience", 20, we),
     ("education", "Education", 10, ed), ("skills", "Skills", 15, sk),
     ("achievements", "Achievements", 15, ach), ("formatting", "Formatting", 10, fm)]
  let total : ℚ :=
    (results.map (fun r => r.2.2.2.score / r.2.2.2.maxScore * r.2.2.1)).sum
  let catFeedback : List String :=
    (results.filter (fun r => r.2.2.2.score < r.2.2.2.maxScore * (6 / 10))).map
      (fun r => r.2.1 ++ ": " ++ r.2.2.2.feedback)
  let final_score := pyMin (Career.pyRound total 2) 100
  let verdict :=
    if final_score < 50 then "Your resume needs significant improvement to pass ATS screening."
    else if final_score < 75 then "Your resume is decent but could be improved for better ATS performance."
    else "Great job! Your resume is well-optimized for ATS systems."
  return { score := final_score, max_score := 100,
           details := results.map (fun r => (r.1, r.2.2.2)),
           feedback := verdict :: catFeedback }

/-- Python value passed to the module-level `calculate_ats_score`:
`None`, a string, or any non-string value. -/
inductive PyInput where
  | noneV : PyInput
  | strV : String → PyInput
  | otherV : PyInput
deriving Repr, DecidableEq

/-- Return value of `calculate_ats_score`: a bare score or a full
`ScoreResult`, depending on `return_full_result`. -/
inductive AtsReturn where
  | num : ℚ → AtsReturn
  | full : ScoreResult → AtsReturn
deriving Repr, DecidableEq

/-- The numeric score carried by either return form. -/
def AtsReturn.scoreOf : AtsReturn → ℚ
  | .num q => q
  | .full r => r.score

/-- Truth of the guard `not text or not isinstance(text, str) or not
text.strip()` (ats_score.py line 787). -/
def invalidInput : PyInput → Bool
  | .noneV => true
  | .otherV => true
  | .strV s => pyStrip s.data = []

/-- Embedding of the module-level `calculate_ats_score` (ats_score.py
lines 775-810): invalid input short-circuits to a zero result, the
computed score is clamped into [0, 100], and any exception from the
scorer is caught and turned into a zero result with an error message. -/
def calculate_ats_score (text : PyInput) (return_full_result : Bool) : AtsReturn :=
  if invalidInput text then
    if return_full_result then
      .full { score := 0, max_score := 100, details := [],
              feedback := ["Empty or invalid resume text provided"] }
    else .num 0
  else
    match text with
    | .strV s =>
      match calculate_score s with
      | .error e =>
        if return_full_result then
          .full { score := 0, max_score := 100, details := [],
                  feedback := ["Error calculating ATS score: " ++ e] }
        else .num 0
      | .ok r =>
        let clamped := pyMax 0 (pyMin 100 r.score)
        if return_full_result then .full { r with score := clamped }
        else .num clamped
    | _ => .num 0

end Cavro.Ats

namespace Cavro.Jd

open Cavro

/-!
Embedding of `cavro/modules/jd_matcher.py`: the `MatchResult` container
and `match_resume_to_jd`, together with a specification-side predicate
for the claimed scoring rule.
-/

/-- The `MatchResult` dataclass (jd_matcher.py lines 63-70).  In the
embedded code paths the semantic-match list is always empty, so it is
carried as a list of strings. -/
structure MatchResult where
  match_score : ℚ
  keyword_overlap : List String
  missing_keywords : List String
  semantic_matches : List String
  feedback : List String
deriving Repr, DecidableEq

/-- Embedding of `match_resume_to_jd` (jd_matcher.py lines 351-460).
With empty input the guard of line 369 returns the missing-text result.
Otherwise the body computes the keyword overlap (lines 380-387) and then
executes `feedback.append(...)` at line 413; the local name `feedback`
is never assigned anywhere in the function, so Python raises a
NameError, which the blanket `except Exception` of line 452 turns into
the zero-score error result.  Every non-empty pair of inputs therefore
produces the error result. -/
def match_resume_to_jd (resume_text jd_text : String) : MatchResult :=
  if resume_text = "" ∨ jd_text = "" then
    { match_score := 0, keyword_overlap := [], missing_keywords := [],
      semantic_matches := [],
      feedback := ["Missing resume or job description text."] }
  else
    { match_score := 0, keyword_overlap := [], missing_keywords := [],
      semantic_matches := [],
      feedback := ["An error occurred while processing your resume. Please try again."] }

/-- Default stopword set of `_calculate_keyword_overlap` (jd_matcher.py
lines 180-199); duplicates in the source literal are irrelevant to
membership. -/
def stopwords : List String :=
  ["a", "an", "and", "are", "as", "at", "be", "by", "for", "from", "has", "he",
   "in", "is", "it", "its", "of", "on", "that", "the", "to", "was", "were",
   "will", "with", "i", "me", "my", "we", "our", "you", "your", "they", "them",
   "their", "this", "these", "those", "am", "been", "being", "have", "had",
   "do", "does", "did", "shall", "should", "would", "may", "might", "must",
   "can", "could", "having", "doing", "but", "if", "or", "because", "until",
   "while", "about", "against", "between", "into", "through", "during",
   "before", "after", "above", "below", "up", "down", "out", "off", "over",
   "under", "again", "further", "then", "once", "here", "there", "when",
   "where", "why", "how", "all", "any", "both", "each", "few", "more", "most",
   "other", "some", "such", "no", "nor", "not", "only", "own", "same", "so",
   "than", "too", "very", "s", "t", "just", "don", "don\x27t", "should\x27ve",
   "now", "d", "ll", "m", "o", "re", "ve", "y", "ain", "aren", "aren\x27t",
   "couldn", "couldn\x27t", "didn", "didn\x27t", "doesn", "doesn\x27t",
   "hadn", "hadn\x27t", "hasn", "hasn\x27t", "haven", "haven\x27t", "isn",
   "isn\x27t", "ma", "mightn", "mightn\x27t", "mustn", "mustn\x27t", "needn",
   "needn\x27t", "shan", "shan\x27t", "shouldn", "shouldn\x27t", "wasn",
   "wasn\x27t", "weren", "weren\x27t", "won", "won\x27t", "wouldn",
   "wouldn\x27t"]

/-- Word tokens `re.findall(r"\b\w+\b", text)`: the maximal runs of word
characters. -/
def wordTokens (l : List Char) : List (List Char) :=
  match l with
  | [] => []
  | c :: t =>
    if pyIsWord c then
      match wordTokens t with
      | [] => [[c]]
      | w :: ws =>
        match t with
        | [] => [[c]]
        | t0 :: _ => if pyIsWord t0 then (c :: w) :: ws else [c] :: w :: ws
    else wordTokens t

/-- Qualifying-token filter of the tokenizer (jd_matcher.py lines
203-216): lowercased tokens that are not stopwords, have length at
least three, and are not purely numeric. -/
def qualifyingTokens (text : String) : List String :=
  ((wordTokens text.data).map (fun w => String.mk (lowerL w))).filter
    (fun w => ¬ stopwords.contains w ∧ 3 ≤ w.length ∧ ¬ w.data.all pyIsDigit)

/-- Specification-side predicate of claim C1: every qualifying token of
the job description appears (here: exactly) among the qualifying tokens
of the résumé text. -/
def allJdTokensInResume (resume_text jd_text : String) : Bool :=
  (qualifyingTokens jd_text).all ((qualifyingTokens resume_text).contains ·)

end Cavro.Jd

namespace Cavro.Career

open Cavro

/-!
Specification-side definitions for the claimed career match score.
These follow the words of the claim ("weighted by inverse list position
with a 5% relevance decay per position", "the fraction of the career's
preferred skills present in the résumé skill set"), to be compared with
`calculate_match_score` as translated from the source.
-/

/-- Positional relevance weight claimed for the i-th required skill. -/
def specRelevance (i : Nat) : ℚ := 1 - (i : ℚ) * (5 / 100)

/-- The claimed weighted required-skill match fraction: the relevance
mass of the matched required skills over the total relevance mass (the
source's zero-total guard kept, as division by a non-positive total is
otherwise unspecified). -/
def spec_weighted_match (resume_skills : List String) (career : CareerInfo) : ℚ :=
  let req := career.required_skills.map lowerS
  let res := resume_skills.map lowerS
  let total := (req.enum.map (fun p => specRelevance p.1)).sum
  if 0 < total then
    ((req.enum.filter (fun p => res.contains p.2)).map (fun p => specRelevance p.1)).sum / total
  else 0

/-- The claimed preferred bonus: the fraction of the career's preferred
skills present in the résumé skill set. -/
def spec_preferred_fraction (resume_skills : List String) (career : CareerInfo) : ℚ :=
  let pref := career.preferred_skills.map lowerS
  let res := resume_skills.map lowerS
  if pref = [] then 0
  else ((pref.filter (res.contains ·)).length : ℚ) / (pref.length : ℚ)

/-- A minimal career profile used to evaluate the match-score formula
at a concrete input: two required skills, one preferred skill. -/
def exampleCareer : CareerInfo :=
  { title := "Example", required_skills := ["python", "sql"],
    preferred_skills := ["docker"], description := "", salary_range := none,
    growth_outlook := "", education := [], certifications := [],
    experience_levels := [], job_market_demand := "" }

end Cavro.Career

namespace Cavro

open Cavro.Career Cavro.Analyzer Cavro.Parser Cavro.Interview Cavro.Ats Cavro.Jd

/-- C1: the claim says `match_resume_to_jd` scores 100 exactly when every
qualifying job-description token appears in the résumé text.  On the
résumé "python developer" and the identical job description, every
qualifying JD token appears in the résumé, yet the function returns the
caught-NameError result with `match_score = 0` (the function body reads
the never-assigned local `feedback`), so the claimed equivalence fails:
the code crashes internally on every non-empty input pair. -/
theorem c1_match_resume_to_jd_zero_despite_full_overlap :
    allJdTokensInResume "python developer" "python developer" = true ∧
    match_resume_to_jd "python developer" "python developer" =
      { match_score := 0, keyword_overlap := [], missing_keywords := [],
        semantic_matches := [],
        feedback := ["An error occurred while processing your resume. Please try again."] } := by
  exact ⟨by decide, rfl⟩

/-- C2: the claim says `suggest_career_paths` returns a sequence of
formatted suggestions without raising for every résumé text.  On the
résumé "python sql pandas numpy", skills are extracted and two careers
pass the default thresholds, and the final formatting step raises a
ValueError (`format_career_suggestion` unpacks each matching-skill
string into a name/relevance pair). -/
theorem c2_suggest_career_paths_raises_valueerror :
    suggest_career_paths "python sql pandas numpy" 5 (1 / 5) 2 none =
      Except.error "ValueError: too many values to unpack (expected 2)" := by
  rfl

/-- C3: the claim says `ATSScorer.calculate_score` returns a score in
[0, 100] for every text, including closed month-year ranges.  On the
text "Jan 2020 - Mar 2022" the date regex matches with a non-`Present`
end group and `_extract_work_experience` reads the nonexistent regex
group `end_year`, so the method raises an IndexError instead of
returning a result. -/
theorem c3_calculate_score_raises_on_closed_range :
    Ats.calculate_score "Jan 2020 - Mar 2022" =
      Except.error "IndexError: no such group" := by
  rfl

/-- C3 component view: the raise originates in the work-experience
extractor itself. -/
theorem c3_extract_work_experience_raises :
    extract_work_experience "Jan 2020 - Mar 2022" =
      Except.error "IndexError: no such group" := by
  rfl

/-- C4: the claim says `generate_questions` returns at most
`num_questions` distinct questions for every input.  On the résumé
"python" the detected technologies are non-empty with no data-science
category, so the check on line 227 of interview_prep.py calls `.lower()`
on a list value and raises an AttributeError, for every value of the
shuffle used for sampling. -/
theorem c4_generate_questions_raises_attributeerror
    (shuffle : List InterviewQuestion → List InterviewQuestion) :
    generate_questions shuffle "python" 5 "all" none =
      Except.error "AttributeError: list object has no attribute lower" := by
  rfl

/-- C5 counterexample: the normalizer maps the non-empty input " " to
the empty string, refuting the claim that the output is empty only when
the input was empty. -/
theorem c5_counterexample_space_input :
    clean_resume_text " " = "" ∧ (" " : String) ≠ "" := by
  exact ⟨rfl, by decide⟩

/-- C6 counterexample: on the exact input of the claim, the extractor
returns no entries at all (the text contains no experience section
header, so the section regex fails), not one entry. -/
theorem c6_counterexample_no_entries :
    extract_experience
        "Senior Software Engineer at Acme Corp\nJan 2020 - Present\n- Increased throughput by 30%" =
      [] := by
  rfl

/-- C8 counterexample: the normalizer is not idempotent.  On
"work work history history" the first pass removes the inner
"work history" occurrence, and whitespace collapsing reassembles a new
"work history" that a second pass removes. -/
theorem c8_counterexample_not_idempotent :
    clean_resume_text (clean_resume_text "work work history history") ≠
      clean_resume_text "work work history history" := by
  decide

/-- C8 amended: normalization is not idempotent; a second application
can strip section-header phrases that the deletions of the first pass
reassembled, as on "work work history history". -/
theorem c8_amended_second_pass_strips_reassembled_header :
    clean_resume_text "work work history history" = "work history" ∧
    clean_resume_text "work history" = "" := by
  exact ⟨rfl, rfl⟩

end Cavro

namespace Cavro

open Cavro.Career Cavro.Analyzer

/-- C9: confirmed.  `analyze_experience_level` returns "senior" exactly
when the extracted years value is at least 10 or a leadership keyword
occurs with at least 5 years; otherwise "mid" exactly when the years
value is at least 2 or a leadership keyword occurs; otherwise "entry".
(The code tests `years >= 5 or leadership` before `years >= 2`, which
collapses to `years >= 2 or leadership`; the empty-text guard also
returns "entry", agreeing with years 0 and no keyword.) -/
theorem c9_analyze_experience_level_spec (t : String) :
    analyze_experience_level t =
      (if yearsExperience t ≥ 10 ∨ (hasLeadershipTerm t = true ∧ yearsExperience t ≥ 5) then
        "senior"
      else if yearsExperience t ≥ 2 ∨ hasLeadershipTerm t = true then "mid"
      else "entry") := by
  unfold analyze_experience_level
  by_cases h : t = ""
  · subst h; decide
  · rw [if_neg h]
    by_cases hl : hasLeadershipTerm t = true
    · simp only [hl, true_and, or_true, if_true]
    · rw [Bool.not_eq_true] at hl
      simp only [hl, Bool.false_eq_true, false_and, or_false]
      all_goals split_ifs <;> first | rfl | omega

/-- The `is_current` field of a built experience entry is by construction
the membership test of its `end_date` field against the three
current-position tokens. -/
theorem buildExperience_is_current (x : List Char) :
    (buildExperience x).is_current =
      (["present", "current", "now"] : List String).contains (buildExperience x).end_date := rfl

/-- C6 amended: on the claimed input text the extractor returns no
entries at all (there is no experience section header line, so the
section regex finds nothing); and in every entry the extractor does
return, on any text, `is_current` holds iff the (lowercased, stripped)
end-date token is one of "present", "current", "now". -/
theorem c6_amended_is_current_invariant :
    extract_experience
        "Senior Software Engineer at Acme Corp\nJan 2020 - Present\n- Increased throughput by 30%" =
      [] ∧
    ∀ (t : String) (e : Experience), e ∈ extract_experience t →
      (e.is_current = true ↔ e.end_date ∈ (["present", "current", "now"] : List String)) := by
  refine ⟨rfl, ?_⟩
  intro t e he
  unfold extract_experience at he
  cases hg : expSectionGroup t.data with
  | none => rw [hg] at he; simp at he
  | some content =>
    rw [hg] at he
    obtain ⟨x, _, rfl⟩ := List.mem_map.mp he
    rw [buildExperience_is_current]
    simp [List.contains]

/-- C6 amended, witness: a text whose experience section yields an entry
with end date "present"; the invariant instantiates to that entry, whose
`is_current` flag is true. -/
theorem c6_amended_is_current_witness :
    ({ title := "worked", company := "Acme Corp from jan - Present plus tools",
       location := "", start_date := "jan -", end_date := "present",
       is_current := true, description := "" } : Experience).is_current = true ↔
      ({ title := "worked", company := "Acme Corp from jan - Present plus tools",
         location := "", start_date := "jan -", end_date := "present",
         is_current := true, description := "" } : Experience).end_date ∈
        (["present", "current", "now"] : List String) :=
  c6_amended_is_current_invariant.2
    "experience\nworked at Acme Corp from jan - Present plus tools" _ (by decide)

end Cavro

namespace Cavro.Ats

open Cavro

/-- Clamping into [0, 100] as performed by `calculate_ats_score`. -/
theorem clamp_mem_unit_interval (y : ℚ) :
    0 ≤ pyMax 0 (pyMin 100 y) ∧ pyMax 0 (pyMin 100 y) ≤ 100 := by
  unfold pyMax pyMin
  split_ifs <;> constructor <;> linarith

/-- On whitespace-only text, `ATSScorer.calculate_score` returns the
empty-text result instead of raising. -/
theorem calculate_score_blank (s : String) (h : pyStrip s.data = []) :
    calculate_score s =
      Except.ok { score := 0, max_score := 100, details := [],
                  feedback := ["Empty resume text provided"] } := by
  simp [calculate_score, h]
  rfl

/-- C10: confirmed.  `calculate_ats_score` never raises; its numeric
score (bare, or the `score` field of the full result) always lies in
[0, 100]; on invalid input (None, a non-string, or a
whitespace-only/empty string) it returns the zero result with the
explanatory message; and whenever the inner scorer raises, it catches
the exception and returns the zero result with an error message. -/
theorem c10_calculate_ats_score_total_and_bounded (input : PyInput) (rf : Bool) :
    (0 ≤ (calculate_ats_score input rf).scoreOf ∧
      (calculate_ats_score input rf).scoreOf ≤ 100) ∧
    (invalidInput input = true →
      calculate_ats_score input rf =
        if rf then
          AtsReturn.full { score := 0, max_score := 100, details := [],
                           feedback := ["Empty or invalid resume text provided"] }
        else AtsReturn.num 0) ∧
    (∀ s e, input = PyInput.strV s → calculate_score s = Except.error e →
      calculate_ats_score input rf =
        if rf then
          AtsReturn.full { score := 0, max_score := 100, details := [],
                           feedback := ["Error calculating ATS score: " ++ e] }
        else AtsReturn.num 0) := by
  unfold calculate_ats_score
  by_cases hv : invalidInput input = true
  · rw [if_pos hv]
    refine ⟨?_, fun _ => rfl, ?_⟩
    · cases rf <;> simp [AtsReturn.scoreOf]
    · intro s e hs he
      subst hs
      have hstrip : pyStrip s.data = [] := by simpa [invalidInput] using hv
      rw [calculate_score_blank s hstrip] at he
      exact absurd he (by simp)
  · rw [if_neg hv]
    cases input with
    | noneV => exact absurd rfl hv
    | otherV => exact absurd rfl hv
    | strV s =>
      refine ⟨?_, fun h => absurd h hv, ?_⟩
      · rcases hcs : calculate_score s with e | r <;> cases rf <;>
          simp [hcs, AtsReturn.scoreOf] <;> exact clamp_mem_unit_interval r.score
      · intro s2 e hs2 he
        cases hs2
        dsimp only
        rw [he]

/-- C10 witness: on the closed date range that makes the inner scorer
raise an IndexError, the module-level function returns the caught-error
full result with score 0. -/
theorem c10_calculate_ats_score_witness :
    calculate_ats_score (PyInput.strV "Jan 2020 - Mar 2022") true =
      AtsReturn.full { score := 0, max_score := 100, details := [],
                       feedback := ["Error calculating ATS score: IndexError: no such group"] } := by
  simpa using
    (c10_calculate_ats_score_total_and_bounded (PyInput.strV "Jan 2020 - Mar 2022") true).2.2
      "Jan 2020 - Mar 2022" "IndexError: no such group" rfl (by rfl)

end Cavro.Ats

namespace Cavro

open Cavro.Parser

/-- Every word produced by whitespace splitting is nonempty and free of
whitespace characters. -/
theorem pySplitWs_words : ∀ (l : List Char) (w : List Char), w ∈ pySplitWs l →
    w ≠ [] ∧ ∀ c ∈ w, pyIsSpace c = false := by
  intro l
  induction l with
  | nil => intro w hw; simp [pySplitWs] at hw
  | cons c t ih =>
    intro w hw
    by_cases hc : pyIsSpace c = true
    · rw [pySplitWs, if_pos hc] at hw
      exact ih w hw
    · rw [pySplitWs, if_neg hc] at hw
      rw [Bool.not_eq_true] at hc
      cases hps : pySplitWs t with
      | nil =>
        rw [hps] at hw
        simp at hw
        subst hw
        exact ⟨by simp, by simp [hc]⟩
      | cons w0 ws0 =>
        rw [hps] at hw
        cases t with
        | nil => simp [pySplitWs] at hps
        | cons t0 t1 =>
          dsimp only at hw
          by_cases ht0 : pyIsSpace t0 = true
          · rw [if_pos ht0] at hw
            rcases List.mem_cons.mp hw with h1 | h2
            · subst h1; exact ⟨by simp, by simp [hc]⟩
            · exact ih w (hps ▸ h2)
          · rw [if_neg ht0] at hw
            rcases List.mem_cons.mp hw with h1 | h2
            · subst h1
              have hw0 := ih w0 (by rw [hps]; exact List.mem_cons_self w0 ws0)
              refine ⟨by simp, ?_⟩
              intro d hd
              rcases List.mem_cons.mp hd with rfl | hd2
              · simp [hc]
              · exact hw0.2 d hd2
            · exact ih w (by rw [hps]; exact List.mem_cons_of_mem w0 h2)

/-- `dropWhile` is the identity on a list whose head fails the test. -/
theorem dropWhile_eq_self_of_head (p : Char → Bool) (l : List Char)
    (h : ∀ c, l.head? = some c → p c = false) : l.dropWhile p = l := by
  cases l with
  | nil => rfl
  | cons c t => simp [List.dropWhile_cons, h c rfl]

/-- `str.strip()` is the identity on text with non-whitespace ends. -/
theorem pyStrip_eq_self_of_ends (l : List Char)
    (h1 : ∀ c, l.head? = some c → pyIsSpace c = false)
    (h2 : ∀ c, l.getLast? = some c → pyIsSpace c = false) : pyStrip l = l := by
  unfold pyStrip
  rw [dropWhile_eq_self_of_head _ _ h1]
  rw [dropWhile_eq_self_of_head _ _ (fun c hc => h2 c (by rwa [List.head?_reverse] at hc))]
  exact List.reverse_reverse l

/-- The last element reported by `getLast?` is a member of the list. -/
theorem mem_of_getLast_some {l : List Char} {c : Char} (h : l.getLast? = some c) : c ∈ l := by
  induction l with
  | nil => simp at h
  | cons a t ih =>
    cases t with
    | nil => simp [List.getLast?] at h; simp [h]
    | cons b t2 =>
      rw [List.getLast?_cons_cons] at h
      exact List.mem_cons_of_mem a (ih h)

/-- A space-join of nonempty whitespace-free words starts with a
non-whitespace character. -/
theorem joinSpace_head_not_space (ws : List (List Char))
    (h : ∀ w ∈ ws, w ≠ [] ∧ ∀ c ∈ w, pyIsSpace c = false) :
    ∀ c, (joinSpace ws).head? = some c → pyIsSpace c = false := by
  intro c hc
  cases ws with
  | nil => simp [joinSpace] at hc
  | cons w rest =>
    have hw := h w (List.mem_cons_self w rest)
    obtain ⟨a, w2, rfl⟩ := List.exists_cons_of_ne_nil hw.1
    cases rest with
    | nil =>
      have he : joinSpace [a :: w2] = a :: w2 := rfl
      rw [he] at hc
      simp at hc
      exact hc ▸ hw.2 a (List.mem_cons_self a w2)
    | cons r rs =>
      have he : joinSpace ((a :: w2) :: r :: rs) =
          (a :: w2) ++ ' ' :: joinSpace (r :: rs) := rfl
      rw [he] at hc
      simp at hc
      exact hc ▸ hw.2 a (List.mem_cons_self a w2)

/-- A space-join of nonempty words from a nonempty word list is nonempty. -/
theorem joinSpace_ne_nil (ws : List (List Char)) (hne : ws ≠ [])
    (h : ∀ w ∈ ws, w ≠ [] ∧ ∀ c ∈ w, pyIsSpace c = false) : joinSpace ws ≠ [] := by
  cases ws with
  | nil => exact absurd rfl hne
  | cons w rest =>
    cases rest with
    | nil => exact h w (List.mem_cons_self w [])|>.1
    | cons r rs =>
      have he : joinSpace (w :: r :: rs) = w ++ ' ' :: joinSpace (r :: rs) := rfl
      rw [he]
      simp

/-- A space-join of nonempty whitespace-free words ends with a
non-whitespace character. -/
theorem joinSpace_last_not_space : ∀ (ws : List (List Char)),
    (∀ w ∈ ws, w ≠ [] ∧ ∀ c ∈ w, pyIsSpace c = false) →
    ∀ c, (joinSpace ws).getLast? = some c → pyIsSpace c = false := by
  intro ws
  induction ws with
  | nil => intro _ c hc; simp [joinSpace] at hc
  | cons w rest ih =>
    intro h c hc
    cases rest with
    | nil =>
      have he : joinSpace [w] = w := rfl
      rw [he] at hc
      exact (h w (List.mem_cons_self w [])).2 c (mem_of_getLast_some hc)
    | cons r rs =>
      have hrest : ∀ w2 ∈ r :: rs, w2 ≠ [] ∧ ∀ c2 ∈ w2, pyIsSpace c2 = false :=
        fun w2 hw2 => h w2 (List.mem_cons_of_mem w hw2)
      have hjne : joinSpace (r :: rs) ≠ [] := joinSpace_ne_nil _ (by simp) hrest
      obtain ⟨j, js, hJ⟩ := List.exists_cons_of_ne_nil hjne
      have he : joinSpace (w :: r :: rs) = w ++ ' ' :: joinSpace (r :: rs) := rfl
      rw [he, List.getLast?_append, hJ, List.getLast?_cons_cons] at hc
      have hsome : (j :: js).getLast?.isSome := by
        rw [List.getLast?_isSome]
        simp
      rw [Option.or_of_isSome hsome] at hc
      exact ih hrest c (hJ ▸ hc)

/-- The final `strip` of the normalizer is a no-op: splitting on
whitespace and rejoining with single spaces already leaves no
whitespace at either end. -/
theorem pyStrip_joinSpace_pySplitWs (l : List Char) :
    pyStrip (joinSpace (pySplitWs l)) = joinSpace (pySplitWs l) :=
  pyStrip_eq_self_of_ends _ (joinSpace_head_not_space _ (pySplitWs_words l))
    (joinSpace_last_not_space _ (pySplitWs_words l))

/-- C5 amended: `clean_resume_text` is total (the embedding is a Lean
function, and the `except` fallback of the source is unreachable for
string inputs) and its output is exactly the single-space join of the
nonempty, whitespace-free words of the cleaned text — so the output is
empty precisely when no word survives cleaning, which can happen for
non-empty inputs such as " ". -/
theorem c5_amended_output_is_word_join (text : String) :
    clean_resume_text text =
      String.mk (joinSpace (pySplitWs (cleanStages text.data))) ∧
    ∀ w ∈ pySplitWs (cleanStages text.data),
      w ≠ [] ∧ ∀ c ∈ w, pyIsSpace c = false := by
  constructor
  · by_cases h : text = ""
    · subst h; rfl
    · unfold clean_resume_text
      rw [if_neg h]
      rw [pyStrip_joinSpace_pySplitWs]
  · exact fun w hw => pySplitWs_words _ w hw

end Cavro

namespace Cavro.Career

open Cavro

/-- Inserting a key absent from a Python dict appends it. -/
theorem dictInsert_append (k : String) (x : ℚ) :
    ∀ (d : List (String × ℚ)), (∀ q ∈ d, q.1 ≠ k) → dictInsert d k x = d ++ [(k, x)] := by
  intro d
  induction d with
  | nil => intro _; rfl
  | cons q rest ih =>
    intro h
    rw [dictInsert]
    rw [if_neg (h q (List.mem_cons_self q rest))]
    rw [ih (fun q2 hq2 => h q2 (List.mem_cons_of_mem q hq2))]
    rfl

/-- Folding `dictInsert` over pairs with pairwise-distinct keys, all
fresh for the accumulator, appends the pairs in order. -/
theorem foldl_dictInsert_fresh (v : Nat → ℚ) :
    ∀ (ps : List (Nat × String)) (acc : List (String × ℚ)),
      (ps.map Prod.snd).Nodup →
      (∀ p ∈ ps, ∀ q ∈ acc, q.1 ≠ p.2) →
      ps.foldl (fun d p => dictInsert d p.2 (v p.1)) acc =
        acc ++ ps.map (fun p => (p.2, v p.1)) := by
  intro ps
  induction ps with
  | nil => intro acc _ _; simp
  | cons p ps ih =>
    intro acc hnd hfresh
    rw [List.foldl_cons]
    rw [dictInsert_append p.2 (v p.1) acc
      (fun q hq => hfresh p (List.mem_cons_self p ps) q hq)]
    have hnd2 : (ps.map Prod.snd).Nodup := by
      rw [List.map_cons] at hnd
      exact (List.nodup_cons.mp hnd).2
    have hhead : p.2 ∉ ps.map Prod.snd := by
      rw [List.map_cons] at hnd
      exact (List.nodup_cons.mp hnd).1
    rw [ih (acc ++ [(p.2, v p.1)]) hnd2 ?fresh]
    · simp
    case fresh =>
      intro p2 hp2 q hq
      rcases List.mem_append.mp hq with hqa | hqb
      · exact hfresh p2 (List.mem_cons_of_mem p hp2) q hqa
      · have : q = (p.2, v p.1) := by simpa using hqb
        subst this
        intro hcontra
        have hc2 : p.2 = p2.2 := hcontra
        apply hhead
        rw [hc2]
        exact List.mem_map_of_mem Prod.snd hp2

/-- With duplicate-free (lowercased) required skills, the relevance
dictionary lists each skill with its positional weight, in order. -/
theorem buildRelevance_eq (req : List String) (h : req.Nodup) :
    buildRelevance req = req.enum.map (fun p => (p.2, specRelevance p.1)) := by
  unfold buildRelevance
  have := foldl_dictInsert_fresh specRelevance req.enum []
    (by rw [List.enum_map_snd]; exact h) (by simp)
  simpa using this

/-- The total relevance mass of the dictionary equals the sum of the
positional weights. -/
theorem total_relevance_eq (req : List String) (h : req.Nodup) :
    ((buildRelevance req).map Prod.snd).sum =
      (req.enum.map (fun p => specRelevance p.1)).sum := by
  rw [buildRelevance_eq req h, List.map_map]
  rfl

/-- A left fold accumulating `+ f s` is the sum of the mapped list. -/
theorem foldl_add_eq_sum (f : String → ℚ) : ∀ (l : List String) (init : ℚ),
    l.foldl (fun acc s => acc + f s) init = init + (l.map f).sum := by
  intro l
  induction l with
  | nil => intro init; simp
  | cons a t ih =>
    intro init
    rw [List.foldl_cons, ih]
    rw [List.map_cons, List.sum_cons]
    ring

/-- A lookup skips a dictionary entry with a different key. -/
theorem dictGet_cons_ne (k0 : String) (v0 : ℚ) (rest : List (String × ℚ))
    (s : String) (d : ℚ) (h : k0 ≠ s) :
    dictGet ((k0, v0) :: rest) s d = dictGet rest s d := by
  rw [dictGet]
  rw [if_neg h]

/-- Summing dictionary lookups of the filtered skills equals summing the
weights over the filtered enumeration, for duplicate-free skills. -/
theorem filtered_dictGet_sum (v : Nat → ℚ) (pred : String → Bool) :
    ∀ (req : List String) (i : Nat), req.Nodup →
      ((req.filter pred).map
          (fun s => dictGet ((req.enumFrom i).map (fun p => (p.2, v p.1))) s (5 / 10))).sum =
        (((req.enumFrom i).filter (fun p => pred p.2)).map (fun p => v p.1)).sum := by
  intro req
  induction req with
  | nil => intro i _; simp [List.enumFrom]
  | cons x xs ih =>
    intro i hnd
    have hx : x ∉ xs := (List.nodup_cons.mp hnd).1
    have hnd2 : xs.Nodup := (List.nodup_cons.mp hnd).2
    have henum : (x :: xs).enumFrom i = (i, x) :: xs.enumFrom (i + 1) := rfl
    rw [henum]
    have hmapcongr :
        (xs.filter pred).map
            (fun s => dictGet ((x, v i) :: (xs.enumFrom (i + 1)).map (fun p => (p.2, v p.1))) s (5 / 10)) =
          (xs.filter pred).map
            (fun s => dictGet ((xs.enumFrom (i + 1)).map (fun p => (p.2, v p.1))) s (5 / 10)) := by
      apply List.map_congr_left
      intro s hs
      have hs2 : s ∈ xs := List.mem_of_mem_filter hs
      have hne : x ≠ s := fun hxs => hx (hxs ▸ hs2)
      exact dictGet_cons_ne x (v i) _ s (5 / 10) hne
    by_cases hp : pred x = true
    · have hfe : List.filter (fun p => pred p.2) ((i, x) :: List.enumFrom (i + 1) xs) =
          (i, x) :: List.filter (fun p => pred p.2) (List.enumFrom (i + 1) xs) := by
        rw [List.filter_cons]
        simp [hp]
      rw [List.filter_cons_of_pos hp, hfe]
      simp only [List.map_cons, List.sum_cons]
      rw [hmapcongr, ih (i + 1) hnd2]
      simp [dictGet]
    · have hfe : List.filter (fun p => pred p.2) ((i, x) :: List.enumFrom (i + 1) xs) =
          List.filter (fun p => pred p.2) (List.enumFrom (i + 1) xs) := by
        rw [List.filter_cons]
        simp [hp]
      rw [List.filter_cons_of_neg hp, hfe]
      simp only [List.map_cons]
      rw [hmapcongr]
      exact ih (i + 1) hnd2

/-- The source's accumulated weighted score equals the relevance mass of
the matched required skills. -/
theorem weighted_score_eq (req res : List String) (h : req.Nodup) :
    (req.filter (res.contains ·)).foldl
        (fun acc s => acc + dictGet (buildRelevance req) s (5 / 10)) 0 =
      ((req.enum.filter (fun p => res.contains p.2)).map (fun p => specRelevance p.1)).sum := by
  rw [foldl_add_eq_sum (fun s => dictGet (buildRelevance req) s (5 / 10))]
  rw [zero_add]
  rw [buildRelevance_eq req h]
  exact filtered_dictGet_sum specRelevance (fun s => res.contains s) req 0 h

/-- C7 counterexample: on a résumé holding one of two required skills
and the single preferred skill, the code's score differs from the
claimed `weighted_match * 0.6 + preferred_fraction * 0.3` (the code
yields 119/260, the claim 158/260): line 284 multiplies the preferred
fraction by 0.5 before the 0.3 weighting. -/
theorem c7_counterexample_preferred_bonus_halved :
    (calculate_match_score ["python", "docker"] exampleCareer).1 ≠
      pyMin 1 (spec_weighted_match ["python", "docker"] exampleCareer * (6 / 10) +
        spec_preferred_fraction ["python", "docker"] exampleCareer * (3 / 10)) := by
  decide

/-- C7 amended: for every résumé skill list and every career whose
required-skills list is non-empty and duplicate-free after lowercasing,
the match score is `weighted_match * 0.6 + (preferred_fraction * 0.5) * 0.3`
capped at 1.0: the claimed formula with the preferred fraction halved. -/
theorem c7_amended_match_score_formula (resume_skills : List String) (career : CareerInfo)
    (h1 : career.required_skills ≠ [])
    (h2 : (career.required_skills.map lowerS).Nodup) :
    (calculate_match_score resume_skills career).1 =
      pyMin 1 (spec_weighted_match resume_skills career * (6 / 10) +
        (spec_preferred_fraction resume_skills career * (1 / 2)) * (3 / 10)) := by
  simp only [calculate_match_score, spec_weighted_match, spec_preferred_fraction]
  rw [if_neg h1]
  dsimp only
  congr 1
  rw [total_relevance_eq _ h2]
  rw [weighted_score_eq _ (resume_skills.map lowerS) h2]
  by_cases hp : career.preferred_skills.map lowerS = []
  · rw [if_pos hp, if_pos hp]
    ring
  · rw [if_neg hp, if_neg hp]
    ring

/-- C7 amended, witness: the formula instantiated at the concrete
example career and résumé skill list. -/
theorem c7_amended_match_score_witness :
    (calculate_match_score ["python", "docker"] exampleCareer).1 =
      pyMin 1 (spec_weighted_match ["python", "docker"] exampleCareer * (6 / 10) +
        (spec_preferred_fraction ["python", "docker"] exampleCareer * (1 / 2)) * (3 / 10)) :=
  c7_amended_match_score_formula ["python", "docker"] exampleCareer (by decide) (by decide)

end Cavro.Career
